import Mathlib

/-!
Verification development for the rosey media organizer.

The Python sources are shallowly embedded: pure string functions from
`rosey/identifier/patterns.py` are translated as Lean functions over
`List Char` (with a small backtracking regular-expression interpreter
standing in for Python's `re` module, patterns transcribed node by node),
and the stateful code from `rosey/mover/mover.py`, `rosey/identifier/nfo.py`
and `rosey/identifier/identifier.py` is translated by explicit passing of a
filesystem state `FS`.  Machine integers do not overflow in the modelled
code paths, so numbers are `Nat`/`Int`.  Python code that can raise is
embedded with `Except`.
-/

namespace Rosey

/-! ## Basic character and string helpers (Python semantics) -/

/-- ASCII lower-casing of a single character, as `str.lower` acts on the
ASCII inputs handled by the program. -/
def charLower (c : Char) : Char :=
  if 'A' ≤ c ∧ c ≤ 'Z' then Char.ofNat (c.toNat + 32) else c

/-- ASCII upper-casing of a single character. -/
def charUpper (c : Char) : Char :=
  if 'a' ≤ c ∧ c ≤ 'z' then Char.ofNat (c.toNat - 32) else c

/-- Python `str.lower` on the ASCII fragment. -/
def strLower (s : String) : String := String.mk (s.toList.map charLower)

/-- Python `str.upper` on the ASCII fragment. -/
def strUpper (s : String) : String := String.mk (s.toList.map charUpper)

/-- Characters Python's `str.strip()` and `\s` treat as whitespace (ASCII). -/
def isPyWhitespace (c : Char) : Bool :=
  c = ' ' ∨ c = '\t' ∨ c = '\n' ∨ c = '\r' ∨ c = '\x0b' ∨ c = '\x0c'

/-- Python word character for `\b`: letters, digits, underscore (ASCII). -/
def isWordChar (c : Char) : Bool := c.isAlphanum ∨ c = '_'

/-- Python `str.strip()` on a character list. -/
def pyStripL (s : List Char) : List Char :=
  ((s.dropWhile isPyWhitespace).reverse.dropWhile isPyWhitespace).reverse

/-- Python `str.strip(chars)`: drop the given characters from both ends. -/
def pyStripChars (chars : List Char) (s : List Char) : List Char :=
  ((s.dropWhile (· ∈ chars)).reverse.dropWhile (· ∈ chars)).reverse

/-- Python slice `s[a:b]` with the usual clamping. -/
def pySlice (s : List Char) (a b : Nat) : List Char := (s.drop a).take (b - a)

/-- Value of a nonempty all-digit string, as Python `int(...)` computes it;
`none` when some character is not a digit (Python would raise `ValueError`). -/
def pyParseNat (s : List Char) : Option Nat :=
  if s ≠ [] ∧ s.all (·.isDigit) then
    some (s.foldl (fun acc c => acc * 10 + (c.toNat - '0'.toNat)) 0)
  else none

/-- Decimal digits of a `\d+` match, always parseable. -/
def digitsToNat (s : List Char) : Nat :=
  s.foldl (fun acc c => acc * 10 + (c.toNat - '0'.toNat)) 0

/-- Python `needle in haystack` substring test. -/
def containsSub (haystack needle : List Char) : Bool :=
  (List.range (haystack.length + 1)).any fun i => needle.isPrefixOf (haystack.drop i)

/-- Python `str.replace(old, new)` (all non-overlapping occurrences, left to
right); `old` is nonempty at every call site. -/
def strReplaceAux (old new : List Char) : Nat → List Char → List Char
  | 0, s => s
  | fuel + 1, s =>
    match s with
    | [] => []
    | c :: rest =>
      if old ≠ [] ∧ old.isPrefixOf s then
        new ++ strReplaceAux old new fuel (s.drop old.length)
      else
        c :: strReplaceAux old new fuel rest

/-- Python `str.replace` entry point. -/
def strReplace (s old new : List Char) : List Char :=
  strReplaceAux old new (s.length + 1) s

/-! ## Path helpers (Python `pathlib` on normalized POSIX-style paths)

Paths are modelled as already-normalized strings (no `.` components, no
repeated or trailing slashes), matching how the program receives them. -/

/-- Components of a path, leading `/` of an absolute path kept as state. -/
def pathIsAbs (p : String) : Bool := p.toList.head? = some '/'

/-- Split a character list on a separator character. -/
def splitOnCharAux (sep : Char) : List Char → List Char → List (List Char)
  | [], acc => [acc.reverse]
  | c :: rest, acc =>
    if c = sep then acc.reverse :: splitOnCharAux sep rest []
    else splitOnCharAux sep rest (c :: acc)

/-- Split a path on `/`, discarding empty components. -/
def pathParts (p : String) : List String :=
  ((splitOnCharAux '/' p.toList []).map String.mk).filter (· ≠ "")

/-- Join path components with `/`. -/
def joinParts : List String → String
  | [] => ""
  | [x] => x
  | x :: xs => x ++ "/" ++ joinParts xs

/-- Rebuild a path from components. -/
def pathUnparts (abs : Bool) (parts : List String) : String :=
  let body := joinParts parts
  if abs then "/" ++ body else if body = "" then "." else body

/-- Python `Path(p).name`: the final component (`""` for `"."` and `"/"`). -/
def pname (p : String) : String :=
  match (pathParts p).getLast? with
  | some n => if p = "." then "" else n
  | none => ""

/-- Python `str(Path(p).parent)`: all but the final component; `"."` when
there is none, `"/"` stays `"/"`. -/
def pparent (p : String) : String :=
  let parts := pathParts p
  if parts.length ≤ 1 then (if pathIsAbs p then "/" else ".")
  else pathUnparts (pathIsAbs p) parts.dropLast

/-- Python `Path(d) / n` rendered back to a string. -/
def pjoin (d n : String) : String :=
  if d = "." then n else if d = "/" then "/" ++ n else d ++ "/" ++ n

/-- Index of the last `.` in a file name that counts as a suffix separator
(Python: the dot must not be the first character). -/
def nameSuffixSplit (name : List Char) : List Char × List Char :=
  let idxs := (List.range name.length).filter fun i => name.get? i = some '.' ∧ i ≠ 0
  match idxs.getLast? with
  | some i => (name.take i, name.drop i)
  | none => (name, [])

/-- Python `Path(p).stem`. -/
def pstem (p : String) : String := String.mk (nameSuffixSplit (pname p).toList).1

/-- Python `Path(p).suffix` (includes the leading dot, or `""`). -/
def psuffix (p : String) : String := String.mk (nameSuffixSplit (pname p).toList).2

/-- Python `Path(p).with_suffix(newSuffix)`. -/
def pwithSuffix (p newSuffix : String) : String :=
  pjoin (pparent p) (pstem p ++ newSuffix)

/-! ## A small interpreter for Python `re` patterns

The program's regular expressions are transcribed node by node into the
`RE` syntax below and run by a fuel-bounded backtracking matcher with
Python's semantics: leftmost match, ordered alternation, greedy (`star`)
and lazy (`lstar`) repetition, capturing groups, lookahead, anchors and
word boundaries.  Fuel only bounds the recursion depth; it is chosen large
enough that the interpreter never runs out on the inputs considered. -/

/-- Syntax of the regular expressions used by the program. -/
inductive RE where
  | eps : RE
  | lit : Char → RE
  | cls : Bool → List (Char × Char) → RE
  | dot : RE
  | seq : RE → RE → RE
  | alt : RE → RE → RE
  | star : RE → RE
  | lstar : RE → RE
  | grp : Nat → RE → RE
  | look : Bool → RE → RE
  | bos : RE
  | eos : RE
  | wb : RE
deriving Repr

/-- Size of a pattern, used to choose the interpreter fuel. -/
def reSize : RE → Nat
  | .eps | .lit _ | .cls _ _ | .dot | .bos | .eos | .wb => 1
  | .seq a b | .alt a b => reSize a + reSize b + 1
  | .star a | .lstar a | .grp _ a | .look _ a => reSize a + 1

/-- Captured group spans: `(index, start, stop)`, most recent first. -/
abbrev Caps := List (Nat × Nat × Nat)

/-- Span of a captured group (Python keeps the last capture). -/
def getCap (caps : Caps) (i : Nat) : Option (Nat × Nat) :=
  match caps.find? (fun t => t.1 = i) with
  | some t => some t.2
  | none => none

/-- Character equality under an optional `re.IGNORECASE` flag. -/
def charEq (ci : Bool) (p c : Char) : Bool :=
  p = c ∨ (ci ∧ charLower p = charLower c)

/-- Membership of a character in a class under an optional ignore-case flag. -/
def inClass (ci : Bool) (ranges : List (Char × Char)) (c : Char) : Bool :=
  let hit := fun (x : Char) => ranges.any fun r => r.1 ≤ x ∧ x ≤ r.2
  hit c ∨ (ci ∧ (hit (charLower c) ∨ hit (charUpper c)))

/-- Word-boundary test at a position of the subject. -/
def atWordBoundary (s : List Char) (i : Nat) : Bool :=
  let before : Bool := match s.get? (i - 1) with
    | some c => decide (i ≠ 0) && isWordChar c
    | none => false
  let here : Bool := match s.get? i with
    | some c => isWordChar c
    | none => false
  before != here

/-- Backtracking matcher in continuation-passing style.  `k` receives the
position and captures after the node; ordered choice gives Python's
preference rules, and repetition stops on an empty-width iteration. -/
def reM (ci : Bool) (s : List Char) :
    Nat → RE → Nat → Caps → (Nat → Caps → Option (Nat × Caps)) → Option (Nat × Caps)
  | 0, _, _, _, _ => none
  | n + 1, r, i, caps, k =>
    match r with
    | .eps => k i caps
    | .lit p =>
      match s.get? i with
      | some c => if charEq ci p c then k (i + 1) caps else none
      | none => none
    | .cls neg ranges =>
      match s.get? i with
      | some c => if inClass ci ranges c ≠ neg then k (i + 1) caps else none
      | none => none
    | .dot =>
      match s.get? i with
      | some c => if c = '\n' then none else k (i + 1) caps
      | none => none
    | .seq a b => reM ci s n a i caps fun j caps2 => reM ci s n b j caps2 k
    | .alt a b =>
      match reM ci s n a i caps k with
      | some res => some res
      | none => reM ci s n b i caps k
    | .star a =>
      match reM ci s n a i caps (fun j caps2 =>
          if j = i then none else reM ci s n (.star a) j caps2 k) with
      | some res => some res
      | none => k i caps
    | .lstar a =>
      match k i caps with
      | some res => some res
      | none =>
        reM ci s n a i caps fun j caps2 =>
          if j = i then none else reM ci s n (.lstar a) j caps2 k
    | .grp idx a => reM ci s n a i caps fun j caps2 => k j ((idx, i, j) :: caps2)
    | .look pos a =>
      match reM ci s n a i caps (fun j caps2 => some (j, caps2)) with
      | some (_, caps2) => if pos then k i caps2 else none
      | none => if pos then none else k i caps
    | .bos => if i = 0 then k i caps else none
    | .eos => if i = s.length then k i caps else none
    | .wb => if atWordBoundary s i then k i caps else none

/-- Fuel large enough for the interpreter on subject `s`. -/
def reFuel (r : RE) (s : List Char) : Nat :=
  (reSize r + 2) * (s.length + 2) + 64

/-- Python `pattern.match(s, i)`: anchored attempt at position `i`,
returning the end position and captures. -/
def reMatchAt (ci : Bool) (r : RE) (s : List Char) (i : Nat) : Option (Nat × Caps) :=
  reM ci s (reFuel r s) r i [] fun j caps => some (j, caps)

/-- Leftmost search from position `i`: `(start, stop, captures)`. -/
def reSearchFromAux (ci : Bool) (r : RE) (s : List Char) :
    Nat → Nat → Option (Nat × Nat × Caps)
  | 0, _ => none
  | rem + 1, i =>
    if i > s.length then none
    else
      match reMatchAt ci r s i with
      | some (j, caps) => some (i, j, caps)
      | none => reSearchFromAux ci r s rem (i + 1)

/-- Python `pattern.search(s)` starting at `i`. -/
def reSearchFrom (ci : Bool) (r : RE) (s : List Char) (i : Nat) : Option (Nat × Nat × Caps) :=
  reSearchFromAux ci r s (s.length + 1 - i) i

/-- Python `pattern.search(s)`. -/
def reSearch (ci : Bool) (r : RE) (s : List Char) : Option (Nat × Nat × Caps) :=
  reSearchFrom ci r s 0

/-- Python `pattern.finditer(s)`: non-overlapping matches left to right,
advancing one position past a zero-width match. -/
def reFindAllAux (ci : Bool) (r : RE) (s : List Char) : Nat → Nat → List (Nat × Nat × Caps)
  | 0, _ => []
  | rem + 1, pos =>
    match reSearchFrom ci r s pos with
    | none => []
    | some (a, b, caps) =>
      (a, b, caps) :: reFindAllAux ci r s rem (if b = a then b + 1 else b)

/-- Python `pattern.finditer(s)` entry point. -/
def reFindAll (ci : Bool) (r : RE) (s : List Char) : List (Nat × Nat × Caps) :=
  reFindAllAux ci r s (s.length + 2) 0

/-- Text of a captured group. -/
def capText (s : List Char) (caps : Caps) (i : Nat) : Option (List Char) :=
  (getCap caps i).map fun sp => pySlice s sp.1 sp.2

/-- Python `pattern.sub(repl, s)`: replace every match; `repl` sees the
whole subject, the match span and the captures. -/
def reSubAux (ci : Bool) (r : RE) (s : List Char)
    (repl : (Nat × Nat) → Caps → List Char) : Nat → Nat → List Char
  | 0, pos => s.drop pos
  | rem + 1, pos =>
    match reSearchFrom ci r s pos with
    | none => s.drop pos
    | some (a, b, caps) =>
      pySlice s pos a ++ repl (a, b) caps ++
        (if b = a then
          match s.get? a with
          | some c => c :: reSubAux ci r s repl rem (a + 1)
          | none => []
        else reSubAux ci r s repl rem b)

/-- Python `pattern.sub(repl, s)` with a replacement function. -/
def reSubF (ci : Bool) (r : RE) (repl : (Nat × Nat) → Caps → List Char)
    (s : List Char) : List Char :=
  reSubAux ci r s repl (s.length + 2) 0

/-- Python `pattern.sub(replacement, s)` with a constant replacement. -/
def reSub (ci : Bool) (r : RE) (replacement : List Char) (s : List Char) : List Char :=
  reSubF ci r (fun _ _ => replacement) s

/-! ### Pattern constructors -/

/-- Literal string pattern. -/
def rlit (t : String) : RE := t.toList.foldr (fun c acc => .seq (.lit c) acc) .eps

/-- Character class listing individual characters. -/
def rcls (t : String) : RE := .cls false (t.toList.map fun c => (c, c))

/-- Negated character class listing individual characters. -/
def rncls (t : String) : RE := .cls true (t.toList.map fun c => (c, c))

/-- The class `\d`. -/
def rdigit : RE := .cls false [('0', '9')]

/-- The class `\s` (ASCII fragment). -/
def rws : RE := rcls " \t\n\r\x0b\x0c"

/-- Greedy `r?`. -/
def ropt (r : RE) : RE := .alt r .eps

/-- Greedy `r+`. -/
def rplus (r : RE) : RE := .seq r (.star r)

/-- Greedy bounded repetition `r{lo,hi}` (`lo` mandatory copies followed by
`hi - lo` greedy optionals). -/
def rrep (r : RE) (lo hi : Nat) : RE :=
  (List.replicate lo r ++ List.replicate (hi - lo) (ropt r)).foldr .seq .eps

/-- Ordered alternation of a list of branches (empty list never matches). -/
def raltL (rs : List RE) : RE :=
  match rs with
  | [] => .cls false []
  | [r] => r
  | r :: rest => .alt r (raltL rest)

/-- Concatenation of a list of nodes. -/
def rseqL (rs : List RE) : RE := rs.foldr .seq .eps

/-! ## `rosey/identifier/patterns.py` -/

/-- Match result of `EpisodeMatch` in `patterns.py`. -/
structure EpisodeMatch where
  season : Nat
  episodes : List Nat
  title : Option String := none
deriving DecidableEq, Repr

/-- Match result of `DateMatch` in `patterns.py`. -/
structure DateMatch where
  date : String
  title : Option String := none
deriving DecidableEq, Repr

/-- The class `[ ._\-]` used as a flexible separator in episode patterns. -/
def sepCls : RE := rcls " ._-"

/-- First entry of `EPISODE_PATTERNS`:
`[Ss](?P<season>\d{1,2})[ ._\-]*[Ee](?P<ep1>\d{1,4})(?:[ ._\-]*-?[ ._\-]*[Ee](?P<ep2>\d{1,4}))?`
compiled with `re.IGNORECASE`; groups 1, 2, 3 are season, ep1, ep2. -/
def epPattern1 : RE :=
  rseqL [rcls "Ss", .grp 1 (rrep rdigit 1 2), .star sepCls, rcls "Ee",
    .grp 2 (rrep rdigit 1 4),
    ropt (rseqL [.star sepCls, ropt (.lit '-'), .star sepCls, rcls "Ee",
      .grp 3 (rrep rdigit 1 4)])]

/-- Second entry of `EPISODE_PATTERNS`:
`(?P<season>\d{1,2})x(?P<ep1>\d{1,4})(?:[ ._\-]*-[ ._\-]*(?P<ep2>\d{1,4}))?`
compiled with `re.IGNORECASE`. -/
def epPattern2 : RE :=
  rseqL [.grp 1 (rrep rdigit 1 2), .lit 'x', .grp 2 (rrep rdigit 1 4),
    ropt (rseqL [.star sepCls, .lit '-', .star sepCls, .grp 3 (rrep rdigit 1 4)])]

/-- `DATE_PATTERN`: `(?P<year>\d{4})[-.](?P<month>\d{2})[-.](?P<day>\d{2})`. -/
def datePatternRe : RE :=
  rseqL [.grp 1 (rrep rdigit 4 4), rcls "-.", .grp 2 (rrep rdigit 2 2),
    rcls "-.", .grp 3 (rrep rdigit 2 2)]

/-- `SEASON_FOLDER_PATTERN`:
`(?:[Ss]eason[.\s]*(?P<season>\d{1,2})|(?:^|[.\s_-])[Ss](?P<season2>\d{1,2})(?:[.\s_-]|$))`
compiled with `re.IGNORECASE`; groups 1 and 2 are season and season2. -/
def seasonFolderRe : RE :=
  .alt
    (rseqL [rcls "Ss", rlit "eason", .star (rcls ". \t\n\r\x0b\x0c"),
      .grp 1 (rrep rdigit 1 2)])
    (rseqL [.alt .bos (rcls ". \t\n\r\x0b\x0c_-"), rcls "Ss",
      .grp 2 (rrep rdigit 1 2), .alt (rcls ". \t\n\r\x0b\x0c_-") .eos])

/-- `PART_PATTERN`:
`\b[Pp](?:ar)?t[.\s]*(?P<part>\d+|(?:[IVX]+|One|Two|Three|Four|Five|Six|Seven|Eight|Nine|Ten)\b)`
compiled with `re.IGNORECASE`. -/
def partPatternRe : RE :=
  rseqL [.wb, rcls "Pp", ropt (rlit "ar"), .lit 't', .star (rcls ". \t\n\r\x0b\x0c"),
    .grp 1 (.alt (rplus rdigit)
      (.seq (raltL [rplus (rcls "IVX"), rlit "One", rlit "Two", rlit "Three",
        rlit "Four", rlit "Five", rlit "Six", rlit "Seven", rlit "Eight",
        rlit "Nine", rlit "Ten"]) .wb))]

/-- Numeric value of a `\d+`-style group. -/
def groupNat (s : List Char) (caps : Caps) (i : Nat) : Option Nat :=
  (capText s caps i).map digitsToNat

/-- Integer groups of the episode-pattern match used by
`extract_episode_info`, plus the end position of the whole match. -/
structure EpGroups where
  season : Nat
  ep1 : Nat
  ep2 : Option Nat
  stop : Nat
deriving DecidableEq, Repr

/-- Decode the groups of a successful episode-pattern search. -/
def epGroupsOf (s : List Char) (res : Nat × Nat × Caps) : Option EpGroups :=
  match groupNat s res.2.2 1, groupNat s res.2.2 2 with
  | some se, some e1 =>
    some { season := se, ep1 := e1, ep2 := groupNat s res.2.2 3, stop := res.2.1 }
  | _, _ => none

/-- The `for pattern in EPISODE_PATTERNS` search loop of
`extract_episode_info`: first matching pattern wins. -/
def episodeSearch (s : List Char) : Option EpGroups :=
  match reSearch true epPattern1 s with
  | some res => epGroupsOf s res
  | none =>
    match reSearch true epPattern2 s with
    | some res => epGroupsOf s res
    | none => none

/-- Lazy bracketed-tag pattern `\[.*?\]`. -/
def bracketLazyRe : RE := rseqL [.lit '[', .lstar .dot, .lit ']']

/-- Quality-marker pattern `\d{3,4}p` (ignore-case at the call site). -/
def qualityRe : RE := rseqL [rrep rdigit 3 4, .lit 'p']

/-- Release-token pattern `\b(?:WEB-?DL|HDTV|BluRay|x264|x265|HEVC|10bit)\b`. -/
def relTokensRe : RE :=
  rseqL [.wb, raltL [rseqL [rlit "WEB", ropt (.lit '-'), rlit "DL"], rlit "HDTV",
    rlit "BluRay", rlit "x264", rlit "x265", rlit "HEVC", rlit "10bit"], .wb]

/-- Episode-title introducer `^\s*[-–]\s*(.+)$`. -/
def dashTitleRe : RE :=
  rseqL [.bos, .star rws, rcls "-–", .star rws, .grp 1 (rplus .dot), .eos]

/-- Episode-title parenthetical `^\s*\(([^)]+)\)`. -/
def parenTitleRe : RE :=
  rseqL [.bos, .star rws, .lit '(', .grp 1 (rplus (rncls ")")), .lit ')']

/-- Port of `_extract_episode_title_from_match`. -/
def extractEpisodeTitleFromMatch (filename : List Char) (after_pos : Nat) : Option String :=
  let remainder := pyStripL (filename.drop after_pos)
  if remainder = [] then none
  else
    let captured : Option (List Char) :=
      match reMatchAt false dashTitleRe remainder 0 with
      | some (_, caps) => (capText remainder caps 1).map pyStripL
      | none =>
        if remainder.head? = some '(' ∧ ')' ∈ remainder then
          match reMatchAt false parenTitleRe remainder 0 with
          | some (_, caps) => (capText remainder caps 1).map pyStripL
          | none => none
        else if (match remainder.head? with
            | some c => isPyWhitespace c || c.isAlpha
            | none => false : Bool) then
          some (pyStripL remainder)
        else none
    match captured with
    | none => none
    | some t0 =>
      let t1 := reSub false bracketLazyRe [] t0
      let t2 := reSub true qualityRe [] t1
      let t3 := reSub true relTokensRe [] t2
      let t4 := pyStripChars " .-_".toList t3
      if t4 = [] then none else some (String.mk t4)

/-- Port of `extract_episode_info`: first matching episode pattern wins; a
second strictly larger episode number expands to the inclusive range,
otherwise both numbers are kept as a pair. -/
def extract_episode_info (filename : String) : Option EpisodeMatch :=
  let sl := filename.toList
  match episodeSearch sl with
  | none => none
  | some g =>
    let episodes :=
      match g.ep2 with
      | some e2 => if e2 > g.ep1 then List.range' g.ep1 (e2 + 1 - g.ep1) else [g.ep1, e2]
      | none => [g.ep1]
    some { season := g.season, episodes := episodes,
           title := extractEpisodeTitleFromMatch sl g.stop }

/-- Trailing separator pattern `[\s\-–—]+$`. -/
def trailingSepRe : RE := rseqL [rplus (rcls " \t\n\r\x0b\x0c-–—"), .eos]

/-- Port of `extract_title_before_episode`. -/
def extract_title_before_episode (filename : String) : String :=
  let sl := filename.toList
  match reSearch true epPattern1 sl with
  | some (a, _, _) => String.mk (reSub false trailingSepRe [] (sl.take a))
  | none =>
    match reSearch true epPattern2 sl with
    | some (a, _, _) => String.mk (reSub false trailingSepRe [] (sl.take a))
    | none =>
      match reSearch false datePatternRe sl with
      | some (a, _, _) => String.mk (sl.take a)
      | none => filename

/-- Port of `extract_date`. -/
def extract_date (filename : String) : Option DateMatch :=
  let sl := filename.toList
  match reSearch false datePatternRe sl with
  | some (_, _, caps) =>
    match capText sl caps 1, capText sl caps 2, capText sl caps 3 with
    | some y, some m, some d =>
      some { date := String.mk y ++ "-" ++ String.mk m ++ "-" ++ String.mk d }
    | _, _, _ => none
  | none => none

/-- Parenthesized year `\((?P<year>\d{4})\)`. -/
def parenYearRe : RE := rseqL [.lit '(', .grp 1 (rrep rdigit 4 4), .lit ')']

/-- Date shape `\d{4}[-\.]\d{2}[-\.]\d{2}` used by the year guards. -/
def dateAnyRe : RE :=
  rseqL [rrep rdigit 4 4, rcls "-.", rrep rdigit 2 2, rcls "-.", rrep rdigit 2 2]

/-- The class `[._\s\-]` used around standalone years. -/
def psepCls : RE := rcls "._ \t\n\r\x0b\x0c-"

/-- Standalone year body `(19\d{2}|20\d{2})`. -/
def yearNumRe : RE :=
  .alt (rseqL [rlit "19", rrep rdigit 2 2]) (rseqL [rlit "20", rrep rdigit 2 2])

/-- Standalone year pattern `(?:^|[._\s\-])(?P<year>19\d{2}|20\d{2})(?=[._\s\-]|$)`. -/
def standaloneYearRe : RE :=
  rseqL [.alt .bos psepCls, .grp 1 yearNumRe, .look true (.alt psepCls .eos)]

/-- Episode-marker guard `[Ss]\d{1,2}[Ee]\d{1,4}[-_]$`. -/
def preEpSERe : RE :=
  rseqL [rcls "Ss", rrep rdigit 1 2, rcls "Ee", rrep rdigit 1 4, rcls "-_", .eos]

/-- Episode-marker guard `\d{1,2}x\d{1,4}[-_]$` (ignore-case). -/
def preEpXRe : RE :=
  rseqL [rrep rdigit 1 2, .lit 'x', rrep rdigit 1 4, rcls "-_", .eos]

/-- The `for match in standalone_pattern.finditer(filename)` loop of
`extract_year`, with the date-context and episode-marker guards. -/
def extractYearStandaloneLoop (sl : List Char) : List (Nat × Nat × Caps) → Option Int
  | [] => none
  | m :: rest =>
    match getCap m.2.2 1 with
    | none => extractYearStandaloneLoop sl rest
    | some (ys, ye) =>
      let context := pySlice sl (ys - 2) (ys + 15)
      if (reSearch false dateAnyRe context).isSome then
        extractYearStandaloneLoop sl rest
      else
        let pre := pySlice sl (ys - 10) ys
        if (reSearch false preEpSERe pre).isSome ∨ (reSearch true preEpXRe pre).isSome then
          extractYearStandaloneLoop sl rest
        else
          let y := digitsToNat (pySlice sl ys ye)
          if 1900 ≤ y ∧ y ≤ 2040 then some (Int.ofNat y)
          else extractYearStandaloneLoop sl rest

/-- Port of `extract_year`: a parenthesized year has priority, then a
standalone year, each guarded against adjacent date patterns and against
years glued to an episode marker. -/
def extract_year (filename : String) : Option Int :=
  let sl := filename.toList
  let parenBranch : Option Int :=
    match reSearch false parenYearRe sl with
    | some (a, _, caps) =>
      let tail := sl.drop (a - 1)
      let dateCheck := reSearch false dateAnyRe tail
      if (match dateCheck with
          | none => true
          | some (ds, _, _) => ds > 1) then
        match capText sl caps 1 with
        | some ytxt =>
          let y := digitsToNat ytxt
          if 1900 ≤ y ∧ y ≤ 2040 then some (Int.ofNat y) else none
        | none => none
      else none
    | none => none
  match parenBranch with
  | some y => some y
  | none => extractYearStandaloneLoop sl (reFindAll false standaloneYearRe sl)

/-- Value of a Roman numeral character in `roman_to_int`. -/
def romanCharValue (c : Char) : Int :=
  if c = 'I' then 1 else if c = 'V' then 5 else if c = 'X' then 10
  else if c = 'L' then 50 else if c = 'C' then 100 else if c = 'D' then 500
  else if c = 'M' then 1000 else 0

/-- Port of `roman_to_int`. -/
def roman_to_int (s : String) : Int :=
  (s.toList.reverse.foldl (fun (acc : Int × Int) c =>
    let v := romanCharValue c
    (if v < acc.2 then acc.1 - v else acc.1 + v, v)) (0, 0)).1

/-- The `word_to_num` table of `extract_part` (`dict.get`: `none` if absent). -/
def wordToNum (s : String) : Option Int :=
  if s = "one" then some 1 else if s = "two" then some 2
  else if s = "three" then some 3 else if s = "four" then some 4
  else if s = "five" then some 5 else if s = "six" then some 6
  else if s = "seven" then some 7 else if s = "eight" then some 8
  else if s = "nine" then some 9 else if s = "ten" then some 10 else none

/-- Port of `extract_part`. -/
def extract_part (filename : String) : Option Int :=
  let sl := filename.toList
  match reSearch true partPatternRe sl with
  | none => none
  | some (_, _, caps) =>
    match capText sl caps 1 with
    | none => none
    | some pt =>
      match pyParseNat pt with
      | some n => some (Int.ofNat n)
      | none =>
        let up := strUpper (String.mk pt)
        if up ∈ ["I", "II", "III", "IV", "V", "VI", "VII", "VIII", "IX", "X"] then
          some (roman_to_int up)
        else wordToNum (strLower (String.mk pt))

/-- Port of `extract_season_from_folder`. -/
def extract_season_from_folder (folder_name : String) : Option Nat :=
  let sl := folder_name.toList
  match reSearch true seasonFolderRe sl with
  | none => none
  | some (_, _, caps) =>
    match capText sl caps 1 with
    | some t => some (digitsToNat t)
    | none =>
      match capText sl caps 2 with
      | some t => some (digitsToNat t)
      | none => none

/-! ### `clean_title` and its patterns, transcribed in source order -/

/-- `\b(Vol|Volume)\s+(\d+)\b` (ignore-case). -/
def volPatternRe : RE :=
  rseqL [.wb, .grp 1 (.alt (rlit "Vol") (rlit "Volume")), rplus rws,
    .grp 2 (rplus rdigit), .wb]

/-- `\(([^)]+)\)`. -/
def parenContentRe : RE := rseqL [.lit '(', .grp 1 (rplus (rncls ")")), .lit ')']

/-- `^\d{4}$`. -/
def fourDigitsFullRe : RE := rseqL [.bos, rrep rdigit 4 4, .eos]

/-- `\(\d{4}\)`. -/
def parenFourRe : RE := rseqL [.lit '(', rrep rdigit 4 4, .lit ')']

/-- Separator run `[._\-–—]+`. -/
def sepRunRe : RE := rplus (rcls "._-–—")

/-- `\s+(19\d{2}|20\d{2})(?=\s|$)`. -/
def looseYearRe : RE :=
  rseqL [rplus rws, .grp 1 yearNumRe, .look true (.alt rws .eos)]

/-- `\b[Pp](?:ar)?t[.\s]*(?:\d+|[IVX]+|One|...|Ten)\b` (ignore-case). -/
def cleanPartRe : RE :=
  rseqL [.wb, rcls "Pp", ropt (rlit "ar"), .lit 't', .star (rcls ". \t\n\r\x0b\x0c"),
    raltL [rplus rdigit, rplus (rcls "IVX"), rlit "One", rlit "Two", rlit "Three",
      rlit "Four", rlit "Five", rlit "Six", rlit "Seven", rlit "Eight",
      rlit "Nine", rlit "Ten"], .wb]

/-- `\b\d{3,4}[pi]\b` (ignore-case). -/
def qualityWordRe : RE := rseqL [.wb, rrep rdigit 3 4, rcls "pi", .wb]

/-- `\b(3d|imax|\d+mm)\b` (ignore-case). -/
def formatRe : RE :=
  rseqL [.wb, .grp 1 (raltL [rlit "3d", rlit "imax", rseqL [rplus rdigit, rlit "mm"]]), .wb]

/-- `\b[Hh]\s*\.?\s*26[45]\b`. -/
def codecHRe : RE :=
  rseqL [.wb, rcls "Hh", .star rws, ropt (.lit '.'), .star rws, rlit "26", rcls "45", .wb]

/-- `\b(x264|x265|h264|h265|hevc|xvid|divx|mp4)\b` (ignore-case). -/
def codecRe : RE :=
  rseqL [.wb, .grp 1 (raltL [rlit "x264", rlit "x265", rlit "h264", rlit "h265",
    rlit "hevc", rlit "xvid", rlit "divx", rlit "mp4"]), .wb]

/-- `\b(?:aac|dd|ddp|ac3|dts|truehd|atmos)\s*\d*\s*\.?\s*\d*\b` (ignore-case). -/
def audioRe : RE :=
  rseqL [.wb, raltL [rlit "aac", rlit "dd", rlit "ddp", rlit "ac3", rlit "dts",
    rlit "truehd", rlit "atmos"], .star rws, .star rdigit, .star rws,
    ropt (.lit '.'), .star rws, .star rdigit, .wb]

/-- Source tag pattern
`\b(webrip|web\s+dl|webdl|web|dl|tvrip|bluray|bdrip|dvdrip|hdrip|hdtv|uhd|4k|amzn|nf|hulu|dv)\b`
(ignore-case). -/
def sourceTagRe : RE :=
  rseqL [.wb, .grp 1 (raltL [rlit "webrip", rseqL [rlit "web", rplus rws, rlit "dl"],
    rlit "webdl", rlit "web", rlit "dl", rlit "tvrip", rlit "bluray", rlit "bdrip",
    rlit "dvdrip", rlit "hdrip", rlit "hdtv", rlit "uhd", rlit "4k", rlit "amzn",
    rlit "nf", rlit "hulu", rlit "dv"]), .wb]

/-- Release tag pattern
`\b(proper|repack|internal|extended\s+edition|unrated|remastered|directors?\s+cut|cut|dubbed)\b`
(ignore-case). -/
def releaseTagRe : RE :=
  rseqL [.wb, .grp 1 (raltL [rlit "proper", rlit "repack", rlit "internal",
    rseqL [rlit "extended", rplus rws, rlit "edition"], rlit "unrated",
    rlit "remastered",
    rseqL [rlit "director", ropt (.lit 's'), rplus rws, rlit "cut"],
    rlit "cut", rlit "dubbed"]), .wb]

/-- `\bedition\b` (ignore-case). -/
def editionRe : RE := rseqL [.wb, rlit "edition", .wb]

/-- Whitespace run `\s+`. -/
def wsRunRe : RE := rplus rws

/-- The seven `compound_patterns` of `clean_title`, each anchored with
`\s*$` at the call site (ignore-case). -/
def compoundEndRes : List RE :=
  [rseqL [rplus rws, rlit "disney", rplus rws, rlit "plus"],
   rseqL [rplus rws, rlit "paramount", rplus rws, rlit "plus"],
   rseqL [rplus rws, rlit "disney", rplus rws, rlit "animated"],
   rseqL [rplus rws, rlit "roku", rplus rws, rlit "original"],
   rseqL [rplus rws, rlit "netflix", rplus rws, rlit "original"],
   rseqL [rplus rws, rlit "hulu", rplus rws, rlit "original"],
   rseqL [rplus rws, rlit "french", rplus rws, rlit "korean"]].map
    fun r => rseqL [r, .star rws, .eos]

/-- The single-word `descriptors_pattern` alternation (ignore-case). -/
def descriptorsRe : RE :=
  .grp 1 (raltL [rlit "korean", rlit "japanese", rlit "chinese", rlit "french",
    rlit "spanish", rlit "german", rlit "italian", rlit "russian", rlit "polish",
    rlit "persian", rlit "irish", rlit "belgian", rlit "british", rlit "telugu",
    rlit "netflix", rlit "hulu", rlit "original", rlit "roku", rlit "disney",
    rlit "plus", rlit "paramount", rlit "animated", rlit "criterion",
    rlit "hdr", rlit "amzn"])

/-- `\s+{descriptors}\s*$` (ignore-case). -/
def descriptorEndRe : RE := rseqL [rplus rws, descriptorsRe, .star rws, .eos]

/-- `^{descriptors}\s+` (ignore-case). -/
def descriptorStartRe : RE := rseqL [.bos, descriptorsRe, rplus rws]

/-- Director-name pattern (ignore-case). -/
def directorRe : RE :=
  rseqL [.wb, .grp 1 (raltL [rseqL [rlit "michael", rplus rws, rlit "bay"],
    rseqL [rlit "baz", rplus rws, rlit "luhrmann"],
    rseqL [rlit "david", rplus rws, rlit "o", rplus rws, rlit "russell"],
    rseqL [rlit "idris", rplus rws, rlit "elba"],
    rseqL [rlit "bj", rplus rws, rlit "novak"]]), .wb]

/-- `\b(black\s+and\s+chrome|romantic\s+comedy|unrated)\b` (ignore-case). -/
def phraseRe : RE :=
  rseqL [.wb, .grp 1 (raltL [rseqL [rlit "black", rplus rws, rlit "and", rplus rws,
    rlit "chrome"], rseqL [rlit "romantic", rplus rws, rlit "comedy"],
    rlit "unrated"]), .wb]

/-- `\bseasons?\s*\d+\s*(?:to|-)+\s*\d+\b` (ignore-case). -/
def seasonsRangeRe : RE :=
  rseqL [.wb, rlit "season", ropt (.lit 's'), .star rws, rplus rdigit, .star rws,
    rplus (raltL [rlit "to", rlit "-"]), .star rws, rplus rdigit, .wb]

/-- `\bseason[s]?\s*\d{1,2}\b` (ignore-case). -/
def seasonTokRe : RE :=
  rseqL [.wb, rlit "season", ropt (rcls "s"), .star rws, rrep rdigit 1 2, .wb]

/-- `\b[Ss]\d{1,2}\b` (case-sensitive). -/
def compactSeasonRe : RE := rseqL [.wb, rcls "Ss", rrep rdigit 1 2, .wb]

/-- `\b(complete|seasons?|season pack)\b` (ignore-case). -/
def collectionRe : RE :=
  rseqL [.wb, .grp 1 (raltL [rlit "complete", rseqL [rlit "season", ropt (.lit 's')],
    rlit "season pack"]), .wb]

/-- `\b\d+\s*(?:to|-)+\s*\d+\b` (ignore-case). -/
def numRangeRe : RE :=
  rseqL [.wb, rplus rdigit, .star rws, rplus (raltL [rlit "to", rlit "-"]),
    .star rws, rplus rdigit, .wb]

/-- `\bto\s*\d+\b` (ignore-case). -/
def toNumRe : RE := rseqL [.wb, rlit "to", .star rws, rplus rdigit, .wb]

/-- Quoted number `'(?P<num>\d+)'`. -/
def quoteNumRe : RE := rseqL [.lit '\'', .grp 1 (rplus rdigit), .lit '\'']

/-- All-caps release group names (case-sensitive). -/
def capsGroupRe : RE :=
  rseqL [.wb, .grp 1 (raltL [rlit "GROUP", rlit "KOGI", rlit "AVS", rlit "GGEZ",
    rlit "BAE", rlit "RBB", rlit "NTB", rlit "RARBG", rlit "ION10", rlit "MEMENTO",
    rlit "KILLERS", rlit "ROVERS", rlit "SPARKS", rlit "FLUX"]), .wb]

/-- Mixed-case release group names `\b(KOGi|NTb|RBB)\b` (case-sensitive). -/
def mixedGroupRe : RE :=
  rseqL [.wb, .grp 1 (raltL [rlit "KOGi", rlit "NTb", rlit "RBB"]), .wb]

/-- Stray episode marker `\b[Ee]\d{1,4}\b` (case-sensitive). -/
def strayEpRe : RE := rseqL [.wb, rcls "Ee", rrep rdigit 1 4, .wb]

/-- Leftover digit pair `\b\d\s+\d\b`. -/
def digitPairRe : RE := rseqL [.wb, rdigit, rplus rws, rdigit, .wb]

/-- Any parenthetical `\([^)]*\)`. -/
def anyParenRe : RE := rseqL [.lit '(', .star (rncls ")"), .lit ')']

/-- Placeholder shape `VOLPLACEHOLDER(\d+)ENDVOL`. -/
def volPlaceholderRe : RE :=
  rseqL [rlit "VOLPLACEHOLDER", .grp 1 (rplus rdigit), rlit "ENDVOL"]

/-- `\bSpider Man\b`, `\bSpider Verse\b`, `\bX Men\b` (ignore-case). -/
def spiderManRe : RE := rseqL [.wb, rlit "Spider Man", .wb]

/-- Pattern for the Spider-Verse compound. -/
def spiderVerseRe : RE := rseqL [.wb, rlit "Spider Verse", .wb]

/-- Pattern for the X-Men compound. -/
def xMenRe : RE := rseqL [.wb, rlit "X Men", .wb]

/-- Repeated stripping of end descriptors (`while True` loop; recursion is
on the string length, which strictly decreases on every rewrite). -/
def stripDescriptorsEnd : Nat → List Char → List Char
  | 0, t => t
  | fuel + 1, t =>
    let t2 := reSub true descriptorEndRe [] t
    if t2 = t then t else stripDescriptorsEnd fuel t2

/-- Repeated stripping of start descriptors. -/
def stripDescriptorsStart : Nat → List Char → List Char
  | 0, t => t
  | fuel + 1, t =>
    let t2 := reSub true descriptorStartRe [] t
    if t2 = t then t else stripDescriptorsStart fuel t2

/-- Port of `clean_title`, pass for pass in source order. -/
def clean_title (title0 : String) (extracted_year : Option Int := none) : String :=
  let t0 := title0.toList
  let volMs := reFindAll true volPatternRe t0
  let volPairs : List (List Char × List Char) := volMs.filterMap fun m =>
    match capText t0 m.2.2 2 with
    | some num =>
      some (pySlice t0 m.1 m.2.1, "VOLPLACEHOLDER".toList ++ num ++ "ENDVOL".toList)
    | none => none
  let t1 := volPairs.foldl (fun s p => strReplace s p.1 p.2) t0
  let parenMs := reFindAll false parenContentRe t1
  let preserved : List (List Char) := parenMs.filterMap fun m =>
    match capText t1 m.2.2 1 with
    | some content =>
      if ¬ (reMatchAt false fourDigitsFullRe content 0).isSome ∧ pyStripL content ≠ [] then
        some ('(' :: (content ++ [')']))
      else none
    | none => none
  let t2 := reSub true epPattern2 [] (reSub true epPattern1 [] t1)
  let t3 := reSub false datePatternRe [] t2
  let t4 := reSub false parenFourRe [] t3
  let t5 := reSub false bracketLazyRe [] t4
  let t6 := reSub false sepRunRe " ".toList t5
  let t7 :=
    match extracted_year with
    | some y =>
      if y ≠ 0 then
        let ydigits := (toString y).toList
        let yAnyRe : RE :=
          .grp 1 (rseqL [rplus rws, rlit (toString y), .star (rcls "- \t\n\r\x0b\x0c")])
        if (reSearch false yAnyRe t6).isSome then
          reSub false yAnyRe " ".toList t6
        else if pyStripL t6 = ydigits then t6
        else
          reSub false (rseqL [.bos, rlit (toString y), .star (rcls "- \t\n\r\x0b\x0c")]) [] t6
      else
        reSubF false looseYearRe (fun sp caps =>
          match capText t6 caps 1 with
          | some ytxt =>
            let y2 := digitsToNat ytxt
            if 1900 ≤ y2 ∧ y2 ≤ 2040 then [] else pySlice t6 sp.1 sp.2
          | none => pySlice t6 sp.1 sp.2) t6
    | none =>
      reSubF false looseYearRe (fun sp caps =>
        match capText t6 caps 1 with
        | some ytxt =>
          let y2 := digitsToNat ytxt
          if 1900 ≤ y2 ∧ y2 ≤ 2040 then [] else pySlice t6 sp.1 sp.2
        | none => pySlice t6 sp.1 sp.2) t6
  let t8 := reSub true cleanPartRe [] t7
  let t9 := reSub true qualityWordRe [] t8
  let t10 := reSub true formatRe [] t9
  let t11 := reSub false codecHRe [] t10
  let t12 := reSub true codecRe [] t11
  let t13 := reSub true audioRe [] t12
  let t14 := reSub true sourceTagRe [] t13
  let t15 := reSub true releaseTagRe [] t14
  let t16 := reSub true editionRe [] t15
  let t17 := pyStripL (reSub false wsRunRe " ".toList t16)
  let t18 := compoundEndRes.foldl (fun s r => reSub true r [] s) t17
  let t19 := stripDescriptorsEnd (t18.length + 1) t18
  let t20 := stripDescriptorsStart (t19.length + 1) t19
  let t21 := reSub true directorRe [] t20
  let t22 := reSub true phraseRe [] t21
  let t23 := reSub true seasonsRangeRe [] t22
  let t24 := reSub true seasonTokRe [] t23
  let t25 := reSub false compactSeasonRe [] t24
  let t26 := reSub true collectionRe [] t25
  let t27 := reSub true numRangeRe [] t26
  let t28 := reSub true toNumRe [] t27
  let t29 := reSubF false quoteNumRe (fun _ caps => (capText t28 caps 1).getD []) t28
  let t30 := reSub false bracketLazyRe [] t29
  let t31 := reSub false capsGroupRe [] t30
  let t32 := reSub false mixedGroupRe [] t31
  let t33 := reSub false strayEpRe [] t32
  let t34 :=
    if (match t33.head? with | some c => c.isDigit | none => false : Bool) then t33
    else reSub false digitPairRe [] t33
  let t35 := reSub false anyParenRe [] t34
  let t36 := pyStripL (reSub false wsRunRe " ".toList t35)
  let t37 := volPairs.foldl (fun s p =>
    match reSearch false volPlaceholderRe p.2 with
    | some (_, _, caps) =>
      match capText p.2 caps 1 with
      | some num => strReplace s p.2 ("Vol ".toList ++ num)
      | none => s
    | none => s) t36
  let t38 := reSub true spiderManRe "Spider-Man".toList t37
  let t39 := reSub true spiderVerseRe "Spider-Verse".toList t38
  let t40 := reSub true xMenRe "X-Men".toList t39
  let t41 :=
    if preserved ≠ [] then
      t40 ++ " ".toList ++ (preserved.intersperse " ".toList).flatten
    else t40
  String.mk (pyStripL t41)

/-! ## Data models (`rosey/models.py`, `rosey/identifier/nfo.py`) -/

/-- Parsed sidecar metadata, the `NFOData` class of `nfo.py`. -/
structure NFOData where
  title : Option String := none
  year : Option Int := none
  imdb_id : Option String := none
  tmdb_id : Option String := none
  tvdb_id : Option String := none
  episode_title : Option String := none
  season : Option Int := none
  episode : Option Int := none
deriving DecidableEq, Repr

/-- The `MediaItem` model.  The `nfo` field models the ordered
string-to-string dict as an association list in insertion order. -/
structure MediaItem where
  kind : String
  source_path : String
  title : Option String := none
  year : Option Int := none
  season : Option Int := none
  episodes : Option (List Nat) := none
  part : Option Int := none
  date : Option String := none
  sidecars : List String := []
  nfo : List (String × Option String) := []
deriving DecidableEq, Repr

/-- The `IdentificationResult` model (the unused optional
`online_metadata` collaborator field is omitted; it is always `None` in
the embedded code paths). -/
structure IdentificationResult where
  item : MediaItem
  reasons : List String
  errors : List String := []
deriving DecidableEq, Repr

/-- The `MoveResult` model; the four lists model the entries of the
`details` dict under its keys `moved`, `skipped`, `replaced`, `kept_both`. -/
structure MoveResult where
  success : Bool
  moved : List String := []
  skipped : List String := []
  replaced : List String := []
  kept_both : List String := []
  rollback_performed : Bool := false
  errors : List String := []
deriving DecidableEq, Repr

/-! ## Filesystem state

Stateful code is embedded by explicit passing of an `FS` value.  Files are
an association list from path to byte size; directories are a list of
paths.  `nfoParse` abstracts the XML parsing of `parse_nfo` (an I/O plus
XML-library boundary: `none` models a parse failure, which `parse_nfo`
turns into `None`), `duration` abstracts the external `ffprobe` probe in
whole minutes (`none` models probe failure), `dirWritable`/`canMkdir`
model `os.access`/`mkdir` permissions, `freeBytes` models
`shutil.disk_usage(...).free`, `volOf` gives the storage device of a
directory (`os.stat(...).st_dev`), and `copyEnv` models the byte count a
`shutil.copy2` call actually materializes at a destination (`none` for a
faithful copy; `some n` for a short write, the failure mode the
size-verification code guards against). -/
structure FS where
  files : List (String × Nat)
  dirs : List String
  nfoParse : String → Option NFOData := fun _ => none
  duration : String → Option Nat := fun _ => none
  dirWritable : String → Bool := fun _ => true
  canMkdir : String → Bool := fun _ => true
  freeBytes : Nat := 1000000000000
  volOf : String → Nat := fun _ => 0
  copyEnv : String → Option Nat := fun _ => none

/-- Size of the file at a path, `none` when absent (`os.stat` raising). -/
def lookupFile (fs : FS) (p : String) : Option Nat :=
  (fs.files.find? (fun e => e.1 = p)).map (·.2)

/-- Existence of a file. -/
def fileExistsB (fs : FS) (p : String) : Bool := (lookupFile fs p).isSome

/-- Existence of a directory. -/
def dirExistsB (fs : FS) (p : String) : Bool := fs.dirs.contains p

/-- Python `Path(p).exists()`: true for files and directories. -/
def pathExistsB (fs : FS) (p : String) : Bool := fileExistsB fs p || dirExistsB fs p

/-- Python `Path(p).unlink(missing_ok=True)`. -/
def unlinkF (fs : FS) (p : String) : FS :=
  { fs with files := fs.files.filter (fun e => e.1 ≠ p) }

/-- Create or overwrite a file entry. -/
def writeFile (fs : FS) (p : String) (size : Nat) : FS :=
  { fs with files := (p, size) :: fs.files.filter (fun e => e.1 ≠ p) }

/-- Python `os.replace(source, dest)`: atomic same-volume rename,
overwriting any existing destination. -/
def osReplace (fs : FS) (source dest : String) : FS :=
  let sz := (lookupFile fs source).getD 0
  writeFile (unlinkF fs source) dest sz

/-- Python `shutil.copy2(source, dest)` under the copy environment: the
destination receives the source's size unless `copyEnv` dictates a short
write. -/
def copy2 (fs : FS) (source dest : String) : FS :=
  let sz := (lookupFile fs source).getD 0
  writeFile fs dest ((fs.copyEnv dest).getD sz)

/-- Python `Path(d).mkdir(parents=True, exist_ok=True)`; raises when the
directory is missing and cannot be created. -/
def ensureDir (fs : FS) (d : String) : Except String FS :=
  if pathExistsB fs d then .ok fs
  else if fs.canMkdir d then .ok { fs with dirs := d :: fs.dirs }
  else .error "PermissionError: mkdir"

/-- Files of a directory in listing order (`iterdir` restricted by
`is_file()`). -/
def iterFiles (fs : FS) (dir : String) : List String :=
  (fs.files.map (·.1)).filter (fun p => pparent p = dir)

/-- Subdirectories of a directory in listing order. -/
def iterDirs (fs : FS) (dir : String) : List String :=
  fs.dirs.filter (fun p => pparent p = dir)

/-! ## `rosey/identifier/nfo.py` -/

/-- Port of `find_nfo_for_file`: the same-name sidecar, else `movie.nfo`,
else `tvshow.nfo` in the file's directory. -/
def find_nfo_for_file (fs : FS) (video_path : String) : Option String :=
  let video_dir := pparent video_path
  let nfo_same := pwithSuffix video_path ".nfo"
  if pathExistsB fs nfo_same then some nfo_same
  else
    let nfo_movie := pjoin video_dir "movie.nfo"
    if pathExistsB fs nfo_movie then some nfo_movie
    else
      let nfo_tvshow := pjoin video_dir "tvshow.nfo"
      if pathExistsB fs nfo_tvshow then some nfo_tvshow else none

/-- Port of `parse_nfo` at the model boundary: the XML lookup itself is
the `nfoParse` oracle of the filesystem state. -/
def parse_nfo (fs : FS) (nfo_path : String) : Option NFOData := fs.nfoParse nfo_path

/-! ## `rosey/mover/mover.py` -/

/-- `SUBTITLE_EXTENSIONS`. -/
def SUBTITLE_EXTENSIONS : List String :=
  [".srt", ".ssa", ".ass", ".vtt", ".sub", ".idx", ".sbv", ".lrc", ".smi", ".stl"]

/-- `SIDECAR_EXTENSIONS = SUBTITLE_EXTENSIONS | {".nfo", ".jpg", ".png", ".jpeg"}`. -/
def SIDECAR_EXTENSIONS : List String :=
  SUBTITLE_EXTENSIONS ++ [".nfo", ".jpg", ".png", ".jpeg"]

/-- Port of `discover_sidecars`: files of the source's directory that are
not the source itself, share its stem exactly, and whose lower-cased
extension is a sidecar extension. -/
def discover_sidecars (fs : FS) (source_path : String) : List String :=
  let base := pstem source_path
  let parent := pparent source_path
  if ¬ pathExistsB fs parent then []
  else
    (fs.files.map (·.1)).filter fun f =>
      pparent f == parent && f != source_path && pstem f == base &&
        SIDECAR_EXTENSIONS.contains (strLower (psuffix f))

/-- Result dict of `check_preflight`. -/
structure PreflightResult where
  free_space_ok : Bool := true
  path_len_ok : Bool := true
  perms_ok : Bool := true
  errors : List String := []
deriving DecidableEq, Repr

/-- The fixed 100 MB free-space safety margin. -/
def BUFFER_100MB : Nat := 100 * 1024 * 1024

/-- Bytes required by the sources: a source that cannot be stat'ed (it
does not exist) contributes nothing and raises no error, matching the
`try/except` around `Path(src).stat()` that only logs a warning. -/
def requiredSpace (fs : FS) (source_paths : List String) : Nat :=
  source_paths.foldl (fun acc s => acc + ((lookupFile fs s).getD 0)) 0

/-- Error text of a failed destination creation (the embedded exception
text is abstracted to the exception class name). -/
def msgCannotCreate : String := "Cannot create destination: PermissionError"

/-- Error text of an unwritable destination. -/
def msgNotWritable : String := "Destination is not writable"

/-- Error text of insufficient free space. -/
def msgInsufficient (need have2 : Nat) : String :=
  "Insufficient space: need " ++ toString need ++ " bytes, have " ++ toString have2

/-- Error text of an over-long destination path. -/
def msgTooLong (src : String) : String := "Path too long: " ++ src

/-- Main body of `check_preflight` after the destination-creation step. -/
def checkPreflightBody (fs : FS) (source_paths : List String)
    (destination_dir : String) : FS × PreflightResult :=
  let permsOk := fs.dirWritable destination_dir
  let errs1 : List String := if permsOk then [] else [msgNotWritable]
  let total := requiredSpace fs source_paths
  let freeOk := ¬ (fs.freeBytes < total + BUFFER_100MB)
  let errs2 := errs1 ++
    (if freeOk then [] else [msgInsufficient (total + BUFFER_100MB) fs.freeBytes])
  let tooLong := source_paths.find?
    (fun src => decide (255 < (pjoin destination_dir (pname src)).length))
  match tooLong with
  | some src =>
    (fs, { free_space_ok := freeOk, path_len_ok := false, perms_ok := permsOk,
           errors := errs2 ++ [msgTooLong src] })
  | none =>
    (fs, { free_space_ok := freeOk, path_len_ok := true, perms_ok := permsOk,
           errors := errs2 })

/-- Port of `check_preflight`: creates the destination directory when
absent (an early return with `perms_ok=False` when that fails), checks
writability, free space against the summed source sizes plus the margin,
and the 255-character bound on every computed destination path (first
offender only, matching the `break`). -/
def check_preflight (fs : FS) (source_paths : List String)
    (destination_dir : String) : FS × PreflightResult :=
  if ¬ pathExistsB fs destination_dir then
    if fs.canMkdir destination_dir then
      checkPreflightBody { fs with dirs := destination_dir :: fs.dirs }
        source_paths destination_dir
    else
      (fs, { perms_ok := false, errors := [msgCannotCreate] })
  else checkPreflightBody fs source_paths destination_dir

/-- Port of `same_volume`: compares the storage device of the source with
that of the destination's parent, creating the latter when missing; any
failure (missing source, uncreatable parent) yields `False`. -/
def same_volume (fs : FS) (source dest : String) : FS × Bool :=
  match lookupFile fs source with
  | none => (fs, false)
  | some _ =>
    let dest_parent := pparent dest
    if ¬ pathExistsB fs dest_parent then
      if fs.canMkdir dest_parent then
        ({ fs with dirs := dest_parent :: fs.dirs },
         fs.volOf (pparent source) == fs.volOf dest_parent)
      else (fs, false)
    else (fs, fs.volOf (pparent source) == fs.volOf dest_parent)

/-- Counter loop of `apply_conflict_suffix`; the fuel exceeds the number
of existing paths, so an unused name is always reached first. -/
def applyConflictSuffixAux (fs : FS) (parent stem sfx : String) :
    Nat → Nat → String
  | 0, counter => pjoin parent (stem ++ " (" ++ toString counter ++ ")" ++ sfx)
  | fuel + 1, counter =>
    let cand := pjoin parent (stem ++ " (" ++ toString counter ++ ")" ++ sfx)
    if ¬ pathExistsB fs cand then cand
    else applyConflictSuffixAux fs parent stem sfx fuel (counter + 1)

/-- Port of `apply_conflict_suffix`. -/
def apply_conflict_suffix (fs : FS) (dest_path : String) : String :=
  applyConflictSuffixAux fs (pparent dest_path) (pstem dest_path) (psuffix dest_path)
    (fs.files.length + fs.dirs.length + 1) 1

/-- Port of `move_file_transactional`.  The `Except` layer carries the one
exception the function itself can leak (a failing `mkdir` of the
destination's parent, which sits just before the `try`); everything inside
the `try` is handled.  Returns the new filesystem, the success flag and
the action string. -/
def move_file_transactional (fs : FS) (source dest0 : String)
    (conflict_policy : String := "skip") (dry_run : Bool := true) :
    Except String (FS × Bool × String) :=
  if dry_run then .ok (fs, true, "moved")
  else if ¬ pathExistsB fs source then .ok (fs, false, "skipped")
  else
    let conflict := pathExistsB fs dest0
    if conflict ∧ conflict_policy = "skip" then .ok (fs, true, "skipped")
    else
      let dest := if conflict ∧ conflict_policy = "keep_both"
        then apply_conflict_suffix fs dest0 else dest0
      let action := if conflict then
          (if conflict_policy = "keep_both" then "kept_both" else "replaced")
        else "moved"
      match ensureDir fs (pparent dest) with
      | .error e => .error e
      | .ok fs1 =>
        let sv := same_volume fs1 source dest
        if sv.2 then .ok (osReplace sv.1 source dest, true, action)
        else
          let fs3 := copy2 sv.1 source dest
          let src_size := (lookupFile fs3 source).getD 0
          let dest_size := (lookupFile fs3 dest).getD 0
          if src_size ≠ dest_size then .ok (unlinkF fs3 dest, false, "skipped")
          else .ok (unlinkF fs3 source, true, action)

/-- Per-action destination lists, the `details` dict of
`move_with_sidecars`. -/
structure MoveDetails where
  moved : List String := []
  skipped : List String := []
  replaced : List String := []
  kept_both : List String := []
deriving DecidableEq, Repr

/-- `details[action].append(path)`. -/
def MoveDetails.add (d : MoveDetails) (action : String) (p : String) : MoveDetails :=
  if action = "moved" then { d with moved := d.moved ++ [p] }
  else if action = "skipped" then { d with skipped := d.skipped ++ [p] }
  else if action = "replaced" then { d with replaced := d.replaced ++ [p] }
  else { d with kept_both := d.kept_both ++ [p] }

/-- Rollback: best-effort deletion of every already-moved destination, in
order (`Path(moved).unlink(missing_ok=True)`; deletion cannot fail in the
model, matching the swallowed exceptions). -/
def rollbackAll (fs : FS) (movedFiles : List String) : FS :=
  movedFiles.foldl unlinkF fs

/-- Assemble a `MoveResult` from the accumulated details. -/
def mkMoveResult (success : Bool) (det : MoveDetails) (rollback : Bool)
    (errors : List String) : MoveResult :=
  { success := success, moved := det.moved, skipped := det.skipped,
    replaced := det.replaced, kept_both := det.kept_both,
    rollback_performed := rollback, errors := errors }

/-- The `for sidecar in sidecars` loop of `move_with_sidecars`: each
companion goes to the primary's new stem plus its own extension; the first
failure rolls back everything moved so far (live runs only) and marks the
outcome; a leaked exception takes the same rollback path with an
`Unexpected error` message. -/
def moveSidecarsLoop (dest_parent dest_stem conflict_policy : String)
    (dry_run : Bool) (fs : FS) (det : MoveDetails) (movedFiles : List String) :
    List String → FS × MoveResult
  | [] => (fs, mkMoveResult true det false [])
  | sidecar :: rest =>
    let sidecar_dest := pjoin dest_parent (dest_stem ++ psuffix sidecar)
    match move_file_transactional fs sidecar sidecar_dest conflict_policy dry_run with
    | .error e =>
      let fsR := if dry_run then fs else rollbackAll fs movedFiles
      (fsR, mkMoveResult false det true ["Unexpected error: " ++ e])
    | .ok (fs2, success, action) =>
      if success then
        moveSidecarsLoop dest_parent dest_stem conflict_policy dry_run fs2
          (det.add action sidecar_dest) (movedFiles ++ [sidecar_dest]) rest
      else
        let fsR := if dry_run then fs2 else rollbackAll fs2 movedFiles
        (fsR, mkMoveResult false det true
          ["Failed to move sidecar " ++ sidecar ++ ", rolled back"])

/-- Port of `move_with_sidecars`: discover companions, preflight them all
(aborting untouched on failure), move the primary, then each companion,
rolling back on any failure. -/
def move_with_sidecars (fs : FS) (item : MediaItem) (destination : String)
    (conflict_policy : String := "skip") (dry_run : Bool := true) :
    FS × MoveResult :=
  let source := item.source_path
  let sidecars := discover_sidecars fs source
  let all_sources := source :: sidecars
  let dest_dir := pparent destination
  let pre := check_preflight fs all_sources dest_dir
  if ¬ (pre.2.free_space_ok && pre.2.path_len_ok && pre.2.perms_ok) then
    (pre.1, mkMoveResult false {} false pre.2.errors)
  else
    match move_file_transactional pre.1 source destination conflict_policy dry_run with
    | .error e =>
      (pre.1, mkMoveResult false {} true ["Unexpected error: " ++ e])
    | .ok (fs2, success, action) =>
      if success then
        moveSidecarsLoop (pparent destination) (pstem destination) conflict_policy
          dry_run fs2 (MoveDetails.add {} action destination) [destination] sidecars
      else
        (fs2, mkMoveResult false {} false ["Failed to move " ++ source])

/-! ## `rosey/identifier/identifier.py` -/

/-- Modelled from the spec: the two optional-constraint toggles of the
identification configuration — `movies_always_in_own_directory`
("Optional constraint A (directory isolation): if enabled, ...") and
`minimum_movie_duration_minutes` ("Optional constraint B (minimum
duration): if enabled, ...") — are read by `identifier.py` and set by its
tests, but the `IdentificationConfig` class in `config/__init__.py` does
not declare them; both constraints are optional with disabled defaults. -/
structure IdentificationConfig where
  use_online_providers : Bool := false
  prefer_nfo_ids : Bool := true
  minimum_movie_duration_minutes : Nat := 0
  movies_always_in_own_directory : Bool := false
deriving DecidableEq, Repr

/-- The configuration sections consumed by the Identification Engine. -/
structure RoseyConfig where
  identification : IdentificationConfig := {}
deriving DecidableEq, Repr

/-- Python truthiness of an optional season number (`0` is falsy). -/
def seasonTruthy (o : Option Nat) : Bool :=
  match o with
  | some n => n ≠ 0
  | none => false

/-- Python `a or b` on optional season numbers. -/
def pyOrSeason (a b : Option Nat) : Option Nat := if seasonTruthy a then a else b

/-- Python truthiness of an optional integer (`0` is falsy). -/
def intTruthy (o : Option Int) : Bool :=
  match o with
  | some n => n ≠ 0
  | none => false

/-- Python `a or b` on optional integers. -/
def pyOrInt (a b : Option Int) : Option Int := if intTruthy a then a else b

/-- Python truthiness of an optional string (`""` is falsy). -/
def strOTruthy (o : Option String) : Bool :=
  match o with
  | some s => s ≠ ""
  | none => false

/-- Python `dict.get(key)` on the ordered `nfo` association list. -/
def dictGet (d : List (String × Option String)) (k : String) : Option String :=
  match d.find? (fun e => e.1 = k) with
  | some e => e.2
  | none => none

/-- Python `f"{n:02d}"` for the nonnegative numbers formatted here. -/
def pad2 (n : Nat) : String := if n < 10 then "0" ++ toString n else toString n

/-- Python `f"{m:.1f}"` for the whole-minute durations of the model. -/
def fmtMinutes (n : Nat) : String := toString n ++ ".0"

/-- `Identifier._should_check_duration`. -/
def shouldCheckDuration (cfg : RoseyConfig) (skip_duration : Bool) : Bool :=
  if skip_duration then false
  else cfg.identification.minimum_movie_duration_minutes > 0

/-- `Identifier._should_check_directory_constraints`. -/
def shouldCheckDirectoryConstraints (cfg : RoseyConfig) : Bool :=
  cfg.identification.movies_always_in_own_directory

/-- Media-file extensions used by the directory heuristics. -/
def mediaExtensions : List String :=
  [".mkv", ".mp4", ".avi", ".mov", ".wmv", ".flv", ".webm", ".m4v"]

/-- Port of `Identifier._discover_companion_files`: subtitle and image
files of the file's directory, plus subtitles of a literal `Subs`
subdirectory. -/
def discoverCompanionFiles (fs : FS) (file_path : String) : List String :=
  let parent_dir := pparent file_path
  if ¬ pathExistsB fs parent_dir then []
  else
    let subtitle_exts := [".srt", ".ass", ".vtt"]
    let image_exts := [".jpg", ".png", ".jpeg"]
    let here := (iterFiles fs parent_dir).filter fun item =>
      subtitle_exts.contains (strLower (psuffix item)) ||
        image_exts.contains (strLower (psuffix item))
    let subs_dir := pjoin parent_dir "Subs"
    let subs :=
      if dirExistsB fs subs_dir then
        (iterFiles fs subs_dir).filter fun item =>
          subtitle_exts.contains (strLower (psuffix item))
      else []
    here ++ subs

/-- Port of `Identifier._is_in_show_folder` (the per-instance cache is
elided: it never changes the result on an unchanging filesystem).  The
loop breaks as soon as either a season subdirectory or a second media
file is seen, so its outcome is the disjunction below. -/
def isInShowFolder (fs : FS) (file_path : String) : Bool :=
  let directory := pparent file_path
  if seasonTruthy (extract_season_from_folder (pname directory)) then true
  else
    let has_season_subdir := (iterDirs fs directory).any fun d =>
      seasonTruthy (extract_season_from_folder (pname d))
    let media_file_count := ((iterFiles fs directory).filter fun f =>
      mediaExtensions.contains (strLower (psuffix f))).length
    has_season_subdir || decide (media_file_count ≥ 2)

/-- Port of `Identifier._is_only_media_file_in_directory` (cache elided). -/
def isOnlyMediaFileInDirectory (fs : FS) (file_path : String) : Bool :=
  let directory := pparent file_path
  ¬ (iterFiles fs directory).any fun item =>
      item != file_path && mediaExtensions.contains (strLower (psuffix item))

/-- The `generic_dirs` set of `_identify_episode`. -/
def genericDirs : List String :=
  ["source", "sources", "tv", "movies", "movie", "video", "videos", "media",
   "downloads", "download", "incoming", "complete"]

/-- Port of `Identifier._identify_episode`; returns the item together
with the extended reasons list (the Python code mutates `reasons`). -/
def identifyEpisode (file_path filename folder_name parent_folder : String)
    (episode_info : Option EpisodeMatch) (date_info : Option DateMatch)
    (nfo_data : Option NFOData) (reasons : List String) : MediaItem × List String :=
  let nfoTitle : Option String :=
    match nfo_data with
    | some nd => if strOTruthy nd.title then nd.title else none
    | none => none
  let (title, reasons1) :=
    match nfoTitle with
    | some t => (t, reasons ++ ["Show title from NFO"])
    | none =>
      let parent_clean := clean_title parent_folder
      let folder_clean := clean_title folder_name
      let file_title_part := extract_title_before_episode filename
      let file_clean := clean_title file_title_part
      let is_season_dir := (extract_season_from_folder folder_name).isSome
      if is_season_dir ∧ parent_clean ≠ "" ∧
          ¬ genericDirs.contains (strLower parent_folder) then
        (parent_clean, reasons ++ ["Show title from folder structure"])
      else if folder_clean ≠ "" ∧ folder_name ≠ "" ∧
          ¬ genericDirs.contains (strLower folder_name) then
        (folder_clean, reasons ++ ["Show title from folder structure"])
      else if parent_clean ≠ "" ∧ parent_folder ≠ "" ∧
          ¬ genericDirs.contains (strLower parent_folder) then
        (parent_clean, reasons ++ ["Show title from folder structure"])
      else
        (file_clean, reasons ++ ["Show title from filename"])
  let (season, episodes, episode_title_from_filename, reasons2) :
      Option Int × Option (List Nat) × Option String × List String :=
    match episode_info with
    | some ei =>
      let r := reasons1 ++
        ["Parsed episode: S" ++ pad2 ei.season ++ "E" ++ pad2 (ei.episodes.headD 0)]
      match ei.title with
      | some t =>
        (some (Int.ofNat ei.season), some ei.episodes, some t,
         r ++ ["Episode title from filename: " ++ t])
      | none => (some (Int.ofNat ei.season), some ei.episodes, none, r)
    | none =>
      match nfo_data with
      | some nd =>
        if nd.season.isSome then
          (nd.season, nd.episode.map (fun e => [e.toNat]), none,
           reasons1 ++ ["Season/episode from NFO"])
        else
          let s := extract_season_from_folder folder_name
          (s.map (fun n => (n : Int)), none, none,
           if seasonTruthy s then
             reasons1 ++ ["Season " ++ toString (s.getD 0) ++ " from folder"]
           else reasons1)
      | none =>
        let s := extract_season_from_folder folder_name
        (s.map (fun n => (n : Int)), none, none,
         if seasonTruthy s then
           reasons1 ++ ["Season " ++ toString (s.getD 0) ++ " from folder"]
         else reasons1)
  let part := extract_part filename
  let reasons3 :=
    if intTruthy part then
      reasons2 ++ ["Multipart episode: Part " ++ toString (part.getD 0)]
    else reasons2
  let (year, reasons4) :=
    match nfo_data with
    | some nd =>
      if intTruthy nd.year then (nd.year, reasons3)
      else
        let y0 := pyOrInt (extract_year parent_folder) (extract_year folder_name)
        let y1 := if ¬ intTruthy y0 ∧ parent_folder = "" then extract_year filename else y0
        (y1, if intTruthy y1 then
          reasons3 ++ ["Year " ++ toString (y1.getD 0) ++ " parsed from folder"]
        else reasons3)
    | none =>
      let y0 := pyOrInt (extract_year parent_folder) (extract_year folder_name)
      let y1 := if ¬ intTruthy y0 ∧ parent_folder = "" then extract_year filename else y0
      (y1, if intTruthy y1 then
        reasons3 ++ ["Year " ++ toString (y1.getD 0) ++ " parsed from folder"]
      else reasons3)
  let (nfo_dict0, reasons5) :=
    match nfo_data with
    | some nd =>
      let (d1, r1) := if strOTruthy nd.imdb_id then
          ([("imdbid", nd.imdb_id)], reasons4 ++ ["IMDB ID from NFO"])
        else ([], reasons4)
      let (d2, r2) := if strOTruthy nd.tmdb_id then
          (d1 ++ [("tmdbid", nd.tmdb_id)], r1 ++ ["TMDB ID from NFO"])
        else (d1, r1)
      let (d3, r3) := if strOTruthy nd.tvdb_id then
          (d2 ++ [("tvdbid", nd.tvdb_id)], r2 ++ ["TVDB ID from NFO"])
        else (d2, r2)
      let d4 := if strOTruthy nd.episode_title then
          d3 ++ [("episode_title", nd.episode_title)]
        else d3
      (d4, r3)
    | none => ([], reasons4)
  let nfo_dict :=
    if strOTruthy episode_title_from_filename ∧
        ¬ strOTruthy (dictGet nfo_dict0 "episode_title") then
      nfo_dict0 ++ [("episode_title", episode_title_from_filename)]
    else nfo_dict0
  ({ kind := "episode", source_path := file_path, title := some title,
     year := year, season := season, episodes := episodes, part := part,
     date := date_info.map (·.date), nfo := nfo_dict }, reasons5)

/-- Port of `Identifier._identify_movie`. -/
def identifyMovie (fs : FS) (file_path filename : String)
    (nfo_data : Option NFOData) (reasons : List String) : MediaItem × List String :=
  let nfoTitle : Option String :=
    match nfo_data with
    | some nd => if strOTruthy nd.title then nd.title else none
    | none => none
  let (title, year, reasons1) :=
    match nfoTitle, nfo_data with
    | some t, some nd =>
      (some t, nd.year, reasons ++ ["Movie title and year from NFO"])
    | _, _ =>
      let y := extract_year filename
      let t := clean_title filename y
      let r := reasons ++ ["Movie title from filename"] ++
        (if intTruthy y then ["Year " ++ toString (y.getD 0) ++ " parsed from filename"]
         else [])
      (some t, y, r)
  let part := extract_part filename
  let reasons2 :=
    if intTruthy part then
      reasons1 ++ ["Multipart movie: Part " ++ toString (part.getD 0)]
    else reasons1
  let sidecars := discoverCompanionFiles fs file_path
  let reasons3 :=
    if sidecars ≠ [] then
      reasons2 ++ ["Found " ++ toString sidecars.length ++ " companion files"]
    else reasons2
  let (nfo_dict, reasons4) :=
    match nfo_data with
    | some nd =>
      let (d1, r1) := if strOTruthy nd.imdb_id then
          ([("imdbid", nd.imdb_id)], reasons3 ++ ["IMDB ID from NFO"])
        else ([], reasons3)
      let (d2, r2) := if strOTruthy nd.tmdb_id then
          (d1 ++ [("tmdbid", nd.tmdb_id)], r1 ++ ["TMDB ID from NFO"])
        else (d1, r1)
      (d2, r2)
    | none => ([], reasons3)
  ({ kind := "movie", source_path := file_path, title := title, year := year,
     part := part, sidecars := sidecars, nfo := nfo_dict }, reasons4)

/-- Reason recorded when the show-folder constraint rejects a movie. -/
def rShowFolder : String :=
  "File in show folder - cannot be movie when movies_always_in_own_directory is enabled"

/-- Reason recorded when the multiple-media-files constraint rejects a movie. -/
def rMultiFiles : String :=
  "Directory contains multiple media files - cannot be movie when movies_always_in_own_directory is enabled"

/-- Reason recorded for a duration below the threshold. -/
def rDurationLess (d min : Nat) : String :=
  "Duration " ++ fmtMinutes d ++ "min < " ++ toString min ++ "min - not a movie"

/-- Reason recorded for a duration meeting the threshold. -/
def rDurationMeets (d : Nat) : String :=
  "Duration " ++ fmtMinutes d ++ "min meets minimum"

/-- The `kind="unknown"` item the constraint downgrades construct. -/
def mkUnknownItem (file_path filename : String) : MediaItem :=
  { kind := "unknown", source_path := file_path, title := some (clean_title filename) }

/-- Port of `Identifier.identify`.  The one exception the function can
raise is modelled in the `Except` layer: when the filename yields no
episode match and a folder yields a truthy season, line 287 calls
`extract_episode_info(filename, known_season=season)`, but
`extract_episode_info` in `patterns.py` accepts only `filename`, so the
call raises `TypeError`. -/
def identify (fs : FS) (cfg : RoseyConfig) (skip_duration : Bool)
    (file_path : String) : Except String IdentificationResult :=
  let nfo_path := find_nfo_for_file fs file_path
  let (nfo_data, reasons1, errors1) :
      Option NFOData × List String × List String :=
    match nfo_path with
    | some np =>
      match parse_nfo fs np with
      | some nd => (some nd, ["Found NFO file: " ++ pname np], [])
      | none => (none, [], ["Failed to parse NFO: " ++ pname np])
    | none => (none, [], [])
  let filename := pstem file_path
  let folder_name := pname (pparent file_path)
  let parent_folder := pname (pparent (pparent file_path))
  let episode_info0 := extract_episode_info filename
  let retry : Except String (Option EpisodeMatch) :=
    match episode_info0 with
    | some ei => .ok (some ei)
    | none =>
      let season := pyOrSeason (extract_season_from_folder folder_name)
        (extract_season_from_folder parent_folder)
      if seasonTruthy season then
        .error "TypeError: extract_episode_info() got an unexpected keyword argument known_season"
      else .ok none
  match retry with
  | .error e => .error e
  | .ok episode_info =>
    let date_info := extract_date filename
    let nfoHasSeason :=
      match nfo_data with
      | some nd => nd.season.isSome
      | none => false
    let (item, reasons2) :
        MediaItem × List String :=
      if episode_info.isSome || date_info.isSome || nfoHasSeason then
        identifyEpisode file_path filename folder_name parent_folder
          episode_info date_info nfo_data reasons1
      else if (match nfo_data with
          | some nd =>
            (strOTruthy nd.tmdb_id || strOTruthy nd.imdb_id) && ! intTruthy nd.season
          | none => false : Bool) then
        if cfg.identification.movies_always_in_own_directory then
          if isInShowFolder fs file_path then
            (mkUnknownItem file_path filename, reasons1 ++ [rShowFolder])
          else if ¬ isOnlyMediaFileInDirectory fs file_path then
            (mkUnknownItem file_path filename, reasons1 ++ [rMultiFiles])
          else
            let (it, rs) := identifyMovie fs file_path filename nfo_data reasons1
            (it, rs ++ ["NFO with TMDB/IMDB ID and directory constraints satisfied"])
        else identifyMovie fs file_path filename nfo_data reasons1
      else
        let year := pyOrInt (extract_year filename) (extract_year folder_name)
        let part := extract_part filename
        let has_movie_keyword :=
          containsSub (strLower filename).toList "episode".toList ||
            containsSub (strLower filename).toList "invalid date".toList
        let needs_duration_check := shouldCheckDuration cfg skip_duration
        let needs_directory_check := shouldCheckDirectoryConstraints cfg
        let duration_minutes :=
          if needs_duration_check then fs.duration file_path else none
        let min_duration := cfg.identification.minimum_movie_duration_minutes
        let nfoHasYear :=
          match nfo_data with
          | some nd => intTruthy nd.year
          | none => false
        let nfoHasTitle :=
          match nfo_data with
          | some nd => strOTruthy nd.title
          | none => false
        if intTruthy year || intTruthy part || nfoHasYear then
          if needs_directory_check then
            if isInShowFolder fs file_path then
              (mkUnknownItem file_path filename, reasons1 ++ [rShowFolder])
            else if ¬ isOnlyMediaFileInDirectory fs file_path then
              (mkUnknownItem file_path filename, reasons1 ++ [rMultiFiles])
            else
              match duration_minutes with
              | some d =>
                if d < min_duration then
                  (mkUnknownItem file_path filename,
                   reasons1 ++ [rDurationLess d min_duration,
                     "Short duration - classified as unknown"])
                else
                  let (it, rs) := identifyMovie fs file_path filename nfo_data reasons1
                  (it, rs ++ [rDurationMeets d,
                    "Directory constraints and duration satisfied"])
              | none =>
                let (it, rs) := identifyMovie fs file_path filename nfo_data reasons1
                (it, rs ++ ["Directory constraints and duration satisfied"])
          else
            match duration_minutes with
            | some d =>
              if needs_duration_check ∧ d < min_duration then
                (mkUnknownItem file_path filename,
                 reasons1 ++ [rDurationLess d min_duration,
                   "Short duration - classified as unknown"])
              else
                let (it, rs) := identifyMovie fs file_path filename nfo_data reasons1
                (it, rs ++ [rDurationMeets d])
            | none => identifyMovie fs file_path filename nfo_data reasons1
        else if nfoHasTitle then
          if needs_directory_check then
            if isInShowFolder fs file_path then
              (mkUnknownItem file_path filename, reasons1 ++ [rShowFolder])
            else if ¬ isOnlyMediaFileInDirectory fs file_path then
              (mkUnknownItem file_path filename, reasons1 ++ [rMultiFiles])
            else
              match duration_minutes with
              | some d =>
                if d < min_duration then
                  let (it, rs) := identifyMovie fs file_path filename nfo_data
                    (reasons1 ++ [rDurationLess d min_duration])
                  (it, rs ++ ["Short duration despite NFO title"])
                else
                  let (it, rs) := identifyMovie fs file_path filename nfo_data reasons1
                  (it, rs ++ [rDurationMeets d,
                    "Directory constraints and duration satisfied"])
              | none =>
                let (it, rs) := identifyMovie fs file_path filename nfo_data reasons1
                (it, rs ++ ["Directory constraints and duration satisfied"])
          else
            match duration_minutes with
            | some d =>
              if needs_duration_check ∧ d < min_duration then
                let (it, rs) := identifyMovie fs file_path filename nfo_data
                  (reasons1 ++ [rDurationLess d min_duration])
                (it, rs ++ ["Short duration despite NFO title"])
              else
                let (it, rs) := identifyMovie fs file_path filename nfo_data reasons1
                (it, rs ++ [rDurationMeets d])
            | none => identifyMovie fs file_path filename nfo_data reasons1
        else if has_movie_keyword then
          if needs_directory_check then
            if isInShowFolder fs file_path then
              (mkUnknownItem file_path filename, reasons1 ++ [rShowFolder])
            else if ¬ isOnlyMediaFileInDirectory fs file_path then
              (mkUnknownItem file_path filename, reasons1 ++ [rMultiFiles])
            else
              let (it, rs) := identifyMovie fs file_path filename nfo_data reasons1
              (it, rs ++ ["Movie keyword detected and directory constraints satisfied"])
          else
            let (it, rs) := identifyMovie fs file_path filename nfo_data reasons1
            (it, rs ++ ["Movie keyword detected"])
        else
          if needs_directory_check then
            if isInShowFolder fs file_path then
              (mkUnknownItem file_path filename, reasons1 ++ [rShowFolder])
            else if ¬ isOnlyMediaFileInDirectory fs file_path then
              (mkUnknownItem file_path filename, reasons1 ++ [rMultiFiles])
            else
              match duration_minutes with
              | some d =>
                if d < min_duration then
                  (mkUnknownItem file_path filename,
                   reasons1 ++ [rDurationLess d min_duration,
                     "Short duration - classified as unknown"])
                else
                  let (it, rs) := identifyMovie fs file_path filename nfo_data reasons1
                  (it, rs ++ [rDurationMeets d,
                    "No episode pattern - defaulting to movie and directory constraints satisfied"])
              | none =>
                let (it, rs) := identifyMovie fs file_path filename nfo_data reasons1
                (it, rs ++
                  ["No episode pattern - defaulting to movie and directory constraints satisfied"])
          else
            match duration_minutes with
            | some d =>
              if needs_duration_check ∧ d < min_duration then
                (mkUnknownItem file_path filename,
                 reasons1 ++ [rDurationLess d min_duration,
                   "Short duration - classified as unknown"])
              else
                let (it, rs) := identifyMovie fs file_path filename nfo_data reasons1
                (it, rs ++ [rDurationMeets d, "No episode pattern - defaulting to movie"])
            | none =>
              let (it, rs) := identifyMovie fs file_path filename nfo_data reasons1
              (it, rs ++ ["No episode pattern - defaulting to movie"])
    .ok { item := item, reasons := reasons2, errors := errors1 }

/-! ## Projection helpers and concrete fixtures used by the theorems -/

/-- Message of a raised exception, `none` on normal return. -/
def exceptError (r : Except String IdentificationResult) : Option String :=
  match r with
  | .error e => some e
  | .ok _ => none

/-- Success flag and action of a single-file move, `none` on a raise. -/
def moveOutcome (r : Except String (FS × Bool × String)) : Option (Bool × String) :=
  r.toOption.map fun x => (x.2.1, x.2.2)

/-- Lookup of a path in the filesystem a single-file move returns. -/
def moveFsLookup (r : Except String (FS × Bool × String)) (p : String) :
    Option (Option Nat) :=
  r.toOption.map fun x => lookupFile x.1 p

/-- Destinations recorded in a `MoveResult`'s four detail lists. -/
def mrDetails (r : MoveResult) : List String :=
  r.moved ++ r.skipped ++ r.replaced ++ r.kept_both

/-- Destinations recorded in a `MoveDetails` accumulator. -/
def detAll (d : MoveDetails) : List String :=
  d.moved ++ d.skipped ++ d.replaced ++ d.kept_both

/-- Spec-style first-match-wins lookup over candidate sidecar paths,
stated for comparison with `find_nfo_for_file`. -/
def firstExistingNfo (fs : FS) (cands : List String) : Option String :=
  cands.find? (fun c => pathExistsB fs c)

/-- Fixture: a show folder whose episode file carries no episode marker in
its own name (`identify` reaches the folder-season retry on it). -/
def fsSeasonFolder : FS :=
  { files := [("Show/Season 01/Pilot.mkv", 700)],
    dirs := ["Show", "Show/Season 01"] }

/-- Fixture: the Matrix scenario of the spec, no sidecar present. -/
def fsMatrix : FS :=
  { files := [("The Matrix (1999) [tmdbid-603]/The Matrix.mkv", 700)],
    dirs := ["The Matrix (1999) [tmdbid-603]"] }

/-- Fixture: a primary with two companions on a cross-volume layout whose
copy environment corrupts the second file of the relocation
(`d/m.srt`), forcing a companion failure after the primary moved. -/
def fsRollback : FS :=
  { files := [("s/m.mkv", 10), ("s/m.srt", 5), ("s/m.jpg", 3)],
    dirs := ["s", "d"],
    volOf := fun p => if p = "s" then 0 else 1,
    copyEnv := fun p => if p = "d/m.srt" then some 1 else none }

/-- Fixture: the media item whose source is `fsRollback`'s primary. -/
def itemRollback : MediaItem := { kind := "movie", source_path := "s/m.mkv" }

/-- Fixture: a destination that already exists, for the conflict policies. -/
def fsConflict : FS :=
  { files := [("s/m.mkv", 10), ("d/m.mkv", 4)], dirs := ["s", "d"] }

/-- Fixture: destination directory absent, so preflight creates it. -/
def fsNoDestDir : FS := { files := [("s/m.mkv", 10)], dirs := ["s"] }

/-- Fixture: the media item whose source is `fsNoDestDir`'s file. -/
def itemNoDestDir : MediaItem := { kind := "movie", source_path := "s/m.mkv" }

/-- Fixture: cross-volume move whose copy writes 7 of 10 bytes. -/
def fsCorrupt : FS :=
  { files := [("s/m.mkv", 10)], dirs := ["s", "d"],
    volOf := fun p => if p = "s" then 0 else 1,
    copyEnv := fun p => if p = "d/m.mkv" then some 7 else none }

/-- Fixture: a directory holding only a `show.nfo` directory-level sidecar
besides the video. -/
def fsShowNfo : FS :=
  { files := [("dir/video.mkv", 1), ("dir/show.nfo", 1)], dirs := ["dir"] }

/-- Fixture: a subtitle main file with a same-stem sidecar. -/
def fsSrtMain : FS :=
  { files := [("s/a.srt", 4), ("s/a.nfo", 2)], dirs := ["s"] }

/-- Fixture: one existing source and one missing source for preflight. -/
def fsPreflight : FS :=
  { files := [("s/m.mkv", 10)], dirs := ["s", "d"], freeBytes := 104857700 }

/-- Fixture: same layout with too little free space. -/
def fsPreflightSmall : FS := { fsPreflight with freeBytes := 100 }

/-! ## Helper lemmas about the filesystem model -/

theorem findPredCongr {α : Type} (l : List α) (f g : α → Bool)
    (h : ∀ a, f a = g a) : l.find? f = l.find? g := by
  induction l with
  | nil => rfl
  | cons a t ih =>
    by_cases hg : g a = true
    · rw [List.find?_cons_of_pos _ ((h a).trans hg),
        List.find?_cons_of_pos _ hg]
    · rw [List.find?_cons_of_neg _ (by simp [(h a).trans, hg, h a]),
        List.find?_cons_of_neg _ (by simpa using hg), ih]

theorem findFilterNe (l : List (String × Nat)) (q p : String) (h : p ≠ q) :
    (l.filter fun e => decide (e.1 ≠ q)).find? (fun e => decide (e.1 = p)) =
      l.find? (fun e => decide (e.1 = p)) := by
  rw [List.find?_filter]
  apply findPredCongr
  intro a
  by_cases hap : a.1 = p
  · have hq : a.1 ≠ q := fun hh => h (hap ▸ hh)
    simp [hap, hq, h]
  · simp [hap]

theorem lookupFile_unlink_self (fs : FS) (q : String) :
    lookupFile (unlinkF fs q) q = none := by
  have hfind : (fs.files.filter fun e => decide (e.1 ≠ q)).find?
      (fun e => decide (e.1 = q)) = none := by
    apply List.find?_eq_none.mpr
    intro x hx
    have hne := (List.mem_filter.mp hx).2
    simpa using hne
  simp [lookupFile, unlinkF, hfind]

theorem lookupFile_unlink_ne (fs : FS) (q p : String) (h : p ≠ q) :
    lookupFile (unlinkF fs q) p = lookupFile fs p := by
  unfold lookupFile unlinkF
  rw [findFilterNe _ _ _ h]

theorem lookupFile_write_self (fs : FS) (p : String) (n : Nat) :
    lookupFile (writeFile fs p n) p = some n := by
  unfold lookupFile writeFile
  rw [List.find?_cons_of_pos _ (by simp)]
  rfl

theorem lookupFile_write_ne (fs : FS) (p : String) (n : Nat) (q : String)
    (h : q ≠ p) : lookupFile (writeFile fs p n) q = lookupFile fs q := by
  unfold lookupFile writeFile
  rw [List.find?_cons_of_neg _ (by simpa using fun hh : p = q => h hh.symm),
    findFilterNe _ _ _ h]

theorem rollbackAll_cons (fs : FS) (a : String) (t : List String) :
    rollbackAll fs (a :: t) = rollbackAll (unlinkF fs a) t := rfl

theorem lookup_rollback_none (l : List String) :
    ∀ (fs : FS) (p : String), lookupFile fs p = none →
      lookupFile (rollbackAll fs l) p = none := by
  induction l with
  | nil => intro fs p h; exact h
  | cons a t ih =>
    intro fs p h
    rw [rollbackAll_cons]
    apply ih
    by_cases hpa : p = a
    · subst hpa; exact lookupFile_unlink_self fs p
    · rw [lookupFile_unlink_ne fs a p hpa]; exact h

theorem lookup_rollback_mem (l : List String) :
    ∀ (fs : FS) (p : String), p ∈ l →
      lookupFile (rollbackAll fs l) p = none := by
  induction l with
  | nil => intro fs p h; cases h
  | cons a t ih =>
    intro fs p h
    rw [rollbackAll_cons]
    rcases List.mem_cons.mp h with h1 | h2
    · subst h1
      exact lookup_rollback_none t (unlinkF fs p) p (lookupFile_unlink_self fs p)
    · exact ih (unlinkF fs a) p h2

theorem mrDetails_mk (b : Bool) (det : MoveDetails) (rb : Bool)
    (errs : List String) : mrDetails (mkMoveResult b det rb errs) = detAll det := rfl

theorem detAll_add_mem (det : MoveDetails) (a p q : String)
    (h : q ∈ detAll (MoveDetails.add det a p)) : q ∈ detAll det ∨ q = p := by
  unfold MoveDetails.add at h
  unfold detAll at h ⊢
  split_ifs at h <;>
    simp only [List.mem_append, List.mem_singleton] at h ⊢ <;> tauto

theorem check_preflight_files (fs : FS) (sp : List String) (d : String) :
    (check_preflight fs sp d).1.files = fs.files := by
  unfold check_preflight checkPreflightBody
  split_ifs <;> first
    | rfl
    | (cases hf : sp.find?
        (fun src => decide (255 < (pjoin d (pname src)).length)) <;> rfl)

theorem moveSidecarsLoop_dry (dp ds pol : String) (scs : List String) :
    ∀ (fs : FS) (det : MoveDetails) (mv : List String),
      (moveSidecarsLoop dp ds pol true fs det mv scs).1 = fs := by
  induction scs with
  | nil => intro fs det mv; rfl
  | cons sc rest ih =>
    intro fs det mv
    have hstep : move_file_transactional fs sc (pjoin dp (ds ++ psuffix sc)) pol true =
        .ok (fs, true, "moved") := rfl
    simp only [moveSidecarsLoop, hstep]
    exact ih fs (det.add "moved" (pjoin dp (ds ++ psuffix sc)))
      (mv ++ [pjoin dp (ds ++ psuffix sc)])

theorem moveSidecarsLoop_rollback (dp ds pol : String) (scs : List String) :
    ∀ (fs : FS) (det : MoveDetails) (mv : List String),
      (∀ q, q ∈ detAll det → q ∈ mv) →
      (moveSidecarsLoop dp ds pol false fs det mv scs).2.rollback_performed = true →
      (moveSidecarsLoop dp ds pol false fs det mv scs).2.success = false ∧
      ∀ q, q ∈ mrDetails (moveSidecarsLoop dp ds pol false fs det mv scs).2 →
        lookupFile (moveSidecarsLoop dp ds pol false fs det mv scs).1 q = none := by
  induction scs with
  | nil =>
    intro fs det mv hinv hrb
    have h0 : (moveSidecarsLoop dp ds pol false fs det mv []).2.rollback_performed = false := rfl
    rw [h0] at hrb
    cases hrb
  | cons sc rest ih =>
    intro fs det mv hinv hrb
    rcases hmv : move_file_transactional fs sc (pjoin dp (ds ++ psuffix sc)) pol false with
      e | trip
    · simp only [moveSidecarsLoop, hmv, Bool.false_eq_true, if_false] at hrb ⊢
      refine ⟨rfl, ?_⟩
      intro q hq
      rw [mrDetails_mk] at hq
      exact lookup_rollback_mem mv fs q (hinv q hq)
    · obtain ⟨fs2, success, action⟩ := trip
      simp only [moveSidecarsLoop, hmv] at hrb ⊢
      by_cases hs : success = true
      · rw [if_pos hs] at hrb ⊢
        refine ih fs2 _ _ ?_ hrb
        intro q hq
        rcases detAll_add_mem det action (pjoin dp (ds ++ psuffix sc)) q hq with h1 | h2
        · exact List.mem_append_left _ (hinv q h1)
        · exact List.mem_append_right _ (by simp [h2])
      · rw [if_neg hs] at hrb ⊢
        refine ⟨rfl, ?_⟩
        intro q hq
        rw [mrDetails_mk] at hq
        simp only [Bool.false_eq_true, if_false]
        exact lookup_rollback_mem mv fs2 q (hinv q hq)

/-! ## Claim theorems -/

/-- C2 (corrected): whenever a live `move_with_sidecars` call reports
`rollback_performed`, the outcome is failed and no destination recorded in
its detail lists still exists in the returned filesystem.  The original
claim's further demand — that the pre-operation filesystem state be
restored — is false on the code: rollback deletes the already-moved files
at their destinations without recreating the sources (see the
counterexample). -/
theorem claim2_rollback_deletes_destinations (fs : FS) (item : MediaItem)
    (destination conflict_policy : String)
    (h : (move_with_sidecars fs item destination conflict_policy
        false).2.rollback_performed = true) :
    (move_with_sidecars fs item destination conflict_policy false).2.success = false ∧
    ∀ q, q ∈ mrDetails (move_with_sidecars fs item destination conflict_policy false).2 →
      lookupFile (move_with_sidecars fs item destination conflict_policy false).1 q
        = none := by
  unfold move_with_sidecars at h ⊢
  set pre := check_preflight fs
    (item.source_path :: discover_sidecars fs item.source_path)
    (pparent destination) with hpre
  by_cases hok : (pre.2.free_space_ok && pre.2.path_len_ok && pre.2.perms_ok) = true
  · rw [if_neg (by simp [hok])] at h ⊢
    rcases hmv : move_file_transactional pre.1 item.source_path destination
        conflict_policy false with e | trip
    · simp only [hmv] at h ⊢
      refine ⟨rfl, ?_⟩
      intro q hq
      rw [mrDetails_mk] at hq
      simp [detAll] at hq
    · obtain ⟨fs2, success, action⟩ := trip
      simp only [hmv] at h ⊢
      by_cases hs : success = true
      · rw [if_pos hs] at h ⊢
        refine moveSidecarsLoop_rollback _ _ _ _ fs2 _ _ ?_ h
        intro q hq
        rcases detAll_add_mem {} action destination q hq with h1 | h2
        · simp [detAll] at h1
        · simp [h2]
      · rw [if_neg hs] at h ⊢
        exact absurd h (by simp [mkMoveResult])
  · rw [if_pos (by simpa using hok)] at h ⊢
    exact absurd h (by simp [mkMoveResult])

/-- C2 counterexample: with the second of three files failing (a short
cross-volume copy of `d/m.srt`), the call reports a failed, rolled-back
outcome and the destinations are empty, but the primary's source
`s/m.mkv` — present before the call — no longer exists either, so the
pre-operation filesystem state is not restored. -/
theorem claim2_counterexample :
    (move_with_sidecars fsRollback itemRollback "d/m.mkv" "skip" false).2.success
      = false ∧
    (move_with_sidecars fsRollback itemRollback "d/m.mkv" "skip"
      false).2.rollback_performed = true ∧
    lookupFile (move_with_sidecars fsRollback itemRollback "d/m.mkv" "skip" false).1
      "d/m.mkv" = none ∧
    lookupFile (move_with_sidecars fsRollback itemRollback "d/m.mkv" "skip" false).1
      "d/m.srt" = none ∧
    lookupFile fsRollback "s/m.mkv" = some 10 ∧
    lookupFile (move_with_sidecars fsRollback itemRollback "d/m.mkv" "skip" false).1
      "s/m.mkv" = none := by
  refine ⟨by decide, by decide, by decide, by decide, by decide, by decide⟩

/-- C2 witness: the amended theorem applied to the rollback fixture. -/
theorem claim2_witness :
    (move_with_sidecars fsRollback itemRollback "d/m.mkv" "skip" false).2.success
      = false ∧
    lookupFile (move_with_sidecars fsRollback itemRollback "d/m.mkv" "skip" false).1
      "d/m.mkv" = none :=
  have h := claim2_rollback_deletes_destinations fsRollback itemRollback
    "d/m.mkv" "skip" (by decide)
  ⟨h.1, h.2 "d/m.mkv" (by decide)⟩

/-- C3 (corrected): a dry-run `move_file_transactional` leaves the
filesystem untouched but always reports success with action `"moved"`
(regardless of conflict policy and destination state, so not necessarily
the action a live run would take), and a dry-run `move_with_sidecars`
creates, modifies and deletes no files — though its preflight step still
runs and may create the destination directory (see the counterexample). -/
theorem claim3_dry_run_behavior :
    (∀ (fs : FS) (source dest conflict_policy : String),
      move_file_transactional fs source dest conflict_policy true
        = .ok (fs, true, "moved")) ∧
    (∀ (fs : FS) (item : MediaItem) (destination conflict_policy : String),
      (move_with_sidecars fs item destination conflict_policy true).1.files
        = fs.files) := by
  constructor
  · intro fs source dest pol
    rfl
  · intro fs item destination pol
    unfold move_with_sidecars
    set pre := check_preflight fs
      (item.source_path :: discover_sidecars fs item.source_path)
      (pparent destination) with hpre
    by_cases hok : (pre.2.free_space_ok && pre.2.path_len_ok && pre.2.perms_ok) = true
    · rw [if_neg (by simp [hok])]
      have hmv : move_file_transactional pre.1 item.source_path destination pol true
          = .ok (pre.1, true, "moved") := rfl
      simp only [hmv, if_true]
      rw [moveSidecarsLoop_dry, hpre, check_preflight_files]
    · rw [if_pos (by simpa using hok)]
      exact check_preflight_files fs _ _

/-- C3 counterexample: with the destination already present under the
`skip` policy, the dry run reports `"moved"` while the live run reports
`"skipped"`; and a dry-run `move_with_sidecars` creates the missing
destination directory during preflight. -/
theorem claim3_counterexample :
    moveOutcome (move_file_transactional fsConflict "s/m.mkv" "d/m.mkv" "skip" true)
      = some (true, "moved") ∧
    moveOutcome (move_file_transactional fsConflict "s/m.mkv" "d/m.mkv" "skip" false)
      = some (true, "skipped") ∧
    ("moved" : String) ≠ "skipped" ∧
    dirExistsB fsNoDestDir "d" = false ∧
    dirExistsB (move_with_sidecars fsNoDestDir itemNoDestDir "d/m.mkv" "skip" true).1
      "d" = true := by
  refine ⟨by decide, by decide, by decide, by decide, by decide⟩

/-- Reduction of a live cross-volume move with no destination conflict:
the file is copied (possibly short, per the copy environment), sizes are
compared, and the function deletes either the partial copy (mismatch) or
the source (match). -/
theorem move_cross_volume_eq (fs : FS) (source dest conflict_policy : String)
    (n : Nat)
    (hsrc : lookupFile fs source = some n)
    (hdest : pathExistsB fs dest = false)
    (hdir : pathExistsB fs (pparent dest) = true)
    (hvol : fs.volOf (pparent source) ≠ fs.volOf (pparent dest)) :
    move_file_transactional fs source dest conflict_policy false =
      (if n ≠ (fs.copyEnv dest).getD n then
        .ok (unlinkF (writeFile fs dest ((fs.copyEnv dest).getD n)) dest,
          false, "skipped")
      else
        .ok (unlinkF (writeFile fs dest ((fs.copyEnv dest).getD n)) source,
          true, "moved")) := by
  have hex : pathExistsB fs source = true := by
    simp [pathExistsB, fileExistsB, hsrc]
  have hsd : source ≠ dest := by
    intro hh
    rw [hh] at hsrc
    simp [pathExistsB, fileExistsB, hsrc] at hdest
  have hbeq : (fs.volOf (pparent source) == fs.volOf (pparent dest)) = false := by
    simpa using hvol
  have hw1 : lookupFile (writeFile fs dest ((fs.copyEnv dest).getD n)) source = some n := by
    rw [lookupFile_write_ne fs dest _ source hsd]
    exact hsrc
  have hw2 : lookupFile (writeFile fs dest ((fs.copyEnv dest).getD n)) dest
      = some ((fs.copyEnv dest).getD n) := lookupFile_write_self fs dest _
  simp only [move_file_transactional, hex, hdest, hdir, ensureDir, same_volume, hsrc, copy2,
    Bool.false_eq_true, false_and, if_false, not_true, not_false_eq_true, ite_false, ite_true,
    Option.getD_some, hbeq, hw1, hw2]

/-- C4 (confirmed): a live cross-volume move copies the file and compares
the destination's size with the source's; on a mismatch the partial copy
is deleted, the call fails with `(False, "skipped")` and the source file
still exists with its original size; only when the sizes match is the
source deleted, the destination holding the full content. -/
theorem claim4_cross_volume_size_verify (fs : FS)
    (source dest conflict_policy : String) (n : Nat)
    (hsrc : lookupFile fs source = some n)
    (hdest : pathExistsB fs dest = false)
    (hdir : pathExistsB fs (pparent dest) = true)
    (hvol : fs.volOf (pparent source) ≠ fs.volOf (pparent dest)) :
    ((fs.copyEnv dest).getD n ≠ n →
      moveOutcome (move_file_transactional fs source dest conflict_policy false)
        = some (false, "skipped") ∧
      moveFsLookup (move_file_transactional fs source dest conflict_policy false) dest
        = some none ∧
      moveFsLookup (move_file_transactional fs source dest conflict_policy false) source
        = some (some n)) ∧
    ((fs.copyEnv dest).getD n = n →
      moveOutcome (move_file_transactional fs source dest conflict_policy false)
        = some (true, "moved") ∧
      moveFsLookup (move_file_transactional fs source dest conflict_policy false) source
        = some none ∧
      moveFsLookup (move_file_transactional fs source dest conflict_policy false) dest
        = some (some n)) := by
  have hsd : source ≠ dest := by
    intro hh
    rw [hh] at hsrc
    simp [pathExistsB, fileExistsB, hsrc] at hdest
  have heq := move_cross_volume_eq fs source dest conflict_policy n hsrc hdest hdir hvol
  have hw1 : lookupFile (writeFile fs dest ((fs.copyEnv dest).getD n)) source = some n := by
    rw [lookupFile_write_ne fs dest _ source hsd]
    exact hsrc
  constructor
  · intro hne
    rw [heq, if_pos (Ne.symm hne)]
    refine ⟨rfl, ?_, ?_⟩
    · simp [moveFsLookup, Except.toOption, lookupFile_unlink_self]
    · simp only [moveFsLookup, Except.toOption, Option.map_some']
      rw [lookupFile_unlink_ne _ _ _ hsd, hw1]
  · intro hm
    rw [heq, if_neg (by simp [hm])]
    refine ⟨rfl, ?_, ?_⟩
    · simp [moveFsLookup, Except.toOption, lookupFile_unlink_self]
    · simp only [moveFsLookup, Except.toOption, Option.map_some']
      rw [lookupFile_unlink_ne _ _ _ (Ne.symm hsd), lookupFile_write_self, hm]

/-- C4 witness: the corrupt-copy fixture, where the copy materializes 7 of
10 bytes; the call fails, the partial copy is gone and the source intact. -/
theorem claim4_witness :
    moveOutcome (move_file_transactional fsCorrupt "s/m.mkv" "d/m.mkv" "skip" false)
      = some (false, "skipped") ∧
    moveFsLookup (move_file_transactional fsCorrupt "s/m.mkv" "d/m.mkv" "skip" false)
      "d/m.mkv" = some none ∧
    moveFsLookup (move_file_transactional fsCorrupt "s/m.mkv" "d/m.mkv" "skip" false)
      "s/m.mkv" = some (some 10) :=
  (claim4_cross_volume_size_verify fsCorrupt "s/m.mkv" "d/m.mkv" "skip" 10
    (by decide) (by decide) (by decide) (by decide)).1 (by decide)

/-- C5 (confirmed): when an episode pattern matches with groups
`season`, `ep1` and optionally `ep2`, the episode list is the inclusive
range `[ep1..ep2]` when `ep2 > ep1`, the unchanged pair `[ep1, ep2]` when
`ep2 ≤ ep1`, and the singleton `[ep1]` without a second marker. -/
theorem claim5_episode_range_rule (s : String) (g : EpGroups)
    (h : episodeSearch s.toList = some g) :
    ∃ m, extract_episode_info s = some m ∧ m.season = g.season ∧
      (g.ep2 = none → m.episodes = [g.ep1]) ∧
      ∀ c, g.ep2 = some c →
        (g.ep1 < c → m.episodes = List.range' g.ep1 (c - g.ep1 + 1)) ∧
        (c ≤ g.ep1 → m.episodes = [g.ep1, c]) := by
  unfold extract_episode_info
  simp only [h]
  refine ⟨_, rfl, rfl, ?_, ?_⟩
  · intro h2
    simp only [h2]
  · intro c h2
    simp only [h2]
    constructor
    · intro hlt
      rw [if_pos hlt]
      congr 1
      omega
    · intro hle
      rw [if_neg (by omega)]

/-- C5 witness: `S02E10-E11` yields the inclusive range `[10, 11]`. -/
theorem claim5_witness :
    (extract_episode_info "Show.S02E10-E11").map EpisodeMatch.episodes
      = some (List.range' 10 2) := by
  obtain ⟨m, hm, _, _, h2⟩ := claim5_episode_range_rule "Show.S02E10-E11"
    ⟨2, 10, some 11, 15⟩ (by decide)
  rw [hm]
  simpa using (h2 11 rfl).1 (by decide)

/-- C6 (corrected): the extracted episode list is always non-empty, and is
a singleton, an inclusive ascending range (strictly larger second
marker), or exactly the pair `[ep1, ep2]` with `ep2 ≤ ep1` — the latter
is descending when `ep2 < ep1`, so the original claim's "sorted
ascending, second ≥ first" fails (see the counterexample). -/
theorem claim6_episode_list_shape (s : String) (m : EpisodeMatch)
    (h : extract_episode_info s = some m) :
    m.episodes ≠ [] ∧
    ((∃ b, m.episodes = [b]) ∨
     (∃ b c, b < c ∧ m.episodes = List.range' b (c - b + 1)) ∨
     (∃ b c, c ≤ b ∧ m.episodes = [b, c])) := by
  rcases hs : episodeSearch s.toList with _ | g
  · rw [extract_episode_info, hs] at h
    cases h
  · rw [extract_episode_info, hs] at h
    simp only [Option.some.injEq] at h
    subst h
    rcases h2 : g.ep2 with _ | c
    · simp only [h2]
      exact ⟨by simp, Or.inl ⟨g.ep1, rfl⟩⟩
    · simp only [h2]
      by_cases hlt : g.ep1 < c
      · rw [if_pos hlt]
        constructor
        · have hlen : (List.range' g.ep1 (c + 1 - g.ep1)).length = c + 1 - g.ep1 :=
            List.length_range' _ _ _
          intro hnil
          rw [hnil] at hlen
          simp at hlen
          omega
        · exact Or.inr (Or.inl ⟨g.ep1, c, hlt, by congr 1; omega⟩)
      · rw [if_neg hlt]
        exact ⟨by simp, Or.inr (Or.inr ⟨g.ep1, c, by omega, rfl⟩)⟩

/-- C6 counterexample: `S01E05-E03` extracts the episode list `[5, 3]`,
which is not sorted ascending and whose second entry is smaller than the
first. -/
theorem claim6_counterexample :
    (extract_episode_info "S01E05-E03").map EpisodeMatch.episodes
      = some [5, 3] ∧
    ¬ List.Sorted (· ≤ ·) ([5, 3] : List Nat) := by
  constructor
  · decide
  · decide

/-- C6 witness: the amended theorem applied to the `[5, 3]` instance. -/
theorem claim6_witness :
    extract_episode_info "S01E05-E03" = some ⟨1, [5, 3], none⟩ ∧
    (⟨1, [5, 3], none⟩ : EpisodeMatch).episodes ≠ [] :=
  ⟨by decide,
   (claim6_episode_list_shape "S01E05-E03" ⟨1, [5, 3], none⟩ (by decide)).1⟩

/-- C1 (code bug): on a file whose name carries no episode marker inside
a season folder, the filename yields no episode match, the folder yields
a season, and `identify` raises instead of completing: line 287 of
`identifier.py` calls `extract_episode_info(filename, known_season=season)`
while `extract_episode_info` accepts only `filename`, a `TypeError`. -/
theorem claim1_identify_raises_typeerror :
    extract_episode_info "Pilot" = none ∧
    extract_season_from_folder "Season 01" = some 1 ∧
    exceptError (identify fsSeasonFolder {} false "Show/Season 01/Pilot.mkv")
      = some "TypeError: extract_episode_info() got an unexpected keyword argument known_season" := by
  refine ⟨by decide, by decide, by decide⟩

set_option maxRecDepth 400000 in
/-- C7 (corrected): on `"The Matrix (1999) [tmdbid-603]/The Matrix.mkv"`
with no sidecar, `identify` returns `kind="movie"` and
`title="The Matrix"`, but `year=None`: the folder year 1999 only selects
the movie branch, while `_identify_movie` recomputes the year from the
filename alone, which carries none. -/
theorem claim7_matrix_scenario :
    (identify fsMatrix {} false
        "The Matrix (1999) [tmdbid-603]/The Matrix.mkv").toOption.map
      (fun r => (r.item.kind, r.item.title, r.item.year))
      = some ("movie", some "The Matrix", none) ∧
    extract_year "The Matrix" = none ∧
    extract_year "The Matrix (1999) [tmdbid-603]" = some 1999 := by
  refine ⟨by decide, by decide, by decide⟩

set_option maxRecDepth 400000 in
/-- C7 counterexample: the record's year is `None`, not 1999 as claimed. -/
theorem claim7_counterexample :
    (identify fsMatrix {} false
        "The Matrix (1999) [tmdbid-603]/The Matrix.mkv").toOption.map
      (fun r => r.item.year) = some none ∧
    (identify fsMatrix {} false
        "The Matrix (1999) [tmdbid-603]/The Matrix.mkv").toOption.map
      (fun r => r.item.year) ≠ some (some 1999) := by
  refine ⟨by decide, by decide⟩

/-- C8 (corrected): the sidecar lookup tries the identical-base-name
sidecar first, then only the directory-level names `movie.nfo` and
`tvshow.nfo`, first match wins — `show` is not in the candidate set (see
the counterexample). -/
theorem claim8_lookup_order (fs : FS) (video_path : String) :
    find_nfo_for_file fs video_path =
      firstExistingNfo fs
        [pwithSuffix video_path ".nfo",
         pjoin (pparent video_path) "movie.nfo",
         pjoin (pparent video_path) "tvshow.nfo"] := by
  rcases h1 : pathExistsB fs (pwithSuffix video_path ".nfo") <;>
    rcases h2 : pathExistsB fs (pjoin (pparent video_path) "movie.nfo") <;>
      rcases h3 : pathExistsB fs (pjoin (pparent video_path) "tvshow.nfo") <;>
        simp [find_nfo_for_file, firstExistingNfo, List.find?, h1, h2, h3]

/-- C8 counterexample: with only a directory-level `show.nfo` present and
no same-base-name sidecar, the lookup finds nothing, though the claim
says `show` is among the conventional names searched. -/
theorem claim8_counterexample :
    fileExistsB fsShowNfo "dir/show.nfo" = true ∧
    pathExistsB fsShowNfo (pwithSuffix "dir/video.mkv" ".nfo") = false ∧
    find_nfo_for_file fsShowNfo "dir/video.mkv" = none := by
  refine ⟨by decide, by decide, by decide⟩

/-- C9 (confirmed): every path returned by `discover_sidecars` differs
from the input path (even when the input's own extension is a sidecar
extension), lies in the input's directory, shares its stem exactly, and
has a lower-cased extension in the fixed sidecar-extension set. -/
theorem claim9_sidecar_properties (fs : FS) (p q : String)
    (h : q ∈ discover_sidecars fs p) :
    q ≠ p ∧ pparent q = pparent p ∧ pstem q = pstem p ∧
      strLower (psuffix q) ∈ SIDECAR_EXTENSIONS := by
  unfold discover_sidecars at h
  by_cases hp : pathExistsB fs (pparent p) = true
  · rw [if_neg (by simp [hp])] at h
    have hpred := (List.mem_filter.mp h).2
    simp only [Bool.and_eq_true, beq_iff_eq, bne_iff_ne] at hpred
    obtain ⟨⟨⟨h1, h2⟩, h3⟩, h4⟩ := hpred
    refine ⟨h2, h1, h3, ?_⟩
    simpa using h4
  · rw [if_pos (by simp [hp])] at h
    cases h

/-- C9 witness: a subtitle main file whose same-stem `.nfo` companion is
discovered but which never lists itself. -/
theorem claim9_witness :
    ("s/a.nfo" : String) ∈ discover_sidecars fsSrtMain "s/a.srt" ∧
    (("s/a.nfo" : String) ≠ "s/a.srt" ∧ pparent "s/a.nfo" = pparent "s/a.srt" ∧
      pstem "s/a.nfo" = pstem "s/a.srt" ∧
      strLower (psuffix "s/a.nfo") ∈ SIDECAR_EXTENSIONS) :=
  ⟨by decide, claim9_sidecar_properties fsSrtMain "s/a.srt" "s/a.nfo" (by decide)⟩

theorem foldl_add_shift (f : String → Nat) (l : List String) :
    ∀ acc, l.foldl (fun a s => a + f s) acc = acc + l.foldl (fun a s => a + f s) 0 := by
  induction l with
  | nil => intro acc; simp
  | cons a t ih =>
    intro acc
    rw [List.foldl_cons, List.foldl_cons, ih (acc + f a), ih (0 + f a)]
    omega

theorem requiredSpace_filter (fs : FS) (l : List String) :
    requiredSpace fs l
      = requiredSpace fs (l.filter fun s => (lookupFile fs s).isSome) := by
  induction l with
  | nil => rfl
  | cons a t ih =>
    unfold requiredSpace at ih ⊢
    rw [List.filter_cons]
    by_cases ha : (lookupFile fs a).isSome = true
    · rw [if_pos ha, List.foldl_cons, List.foldl_cons, foldl_add_shift _ t,
        foldl_add_shift _ (t.filter fun s => (lookupFile fs s).isSome), ih]
    · have hz : (lookupFile fs a).getD 0 = 0 := by
        rcases hl : lookupFile fs a with _ | v
        · rfl
        · rw [hl] at ha; simp at ha
      rw [if_neg ha, List.foldl_cons, hz, foldl_add_shift _ t, ih]
      omega

theorem checkPreflightBody_spec (fs1 : FS) (sp : List String) (d : String) :
    ((checkPreflightBody fs1 sp d).2.free_space_ok = false →
      fs1.freeBytes < requiredSpace fs1 sp + BUFFER_100MB) ∧
    ((checkPreflightBody fs1 sp d).2.perms_ok = false → fs1.dirWritable d = false) ∧
    ((checkPreflightBody fs1 sp d).2.path_len_ok = false →
      ∃ src, src ∈ sp ∧ 255 < (pjoin d (pname src)).length) ∧
    (∀ e, e ∈ (checkPreflightBody fs1 sp d).2.errors →
      e = msgNotWritable ∨
      e = msgInsufficient (requiredSpace fs1 sp + BUFFER_100MB) fs1.freeBytes ∨
      ∃ src, src ∈ sp ∧ e = msgTooLong src) := by
  unfold checkPreflightBody
  cases hf : sp.find? (fun src => decide (255 < (pjoin d (pname src)).length)) with
  | none =>
    dsimp only
    split_ifs with hw hfree hfree <;> refine ⟨?_, ?_, ?_, ?_⟩
    all_goals intros
    all_goals try simp_all
    all_goals tauto
  | some src =>
    have hsp : src ∈ sp := List.mem_of_find?_eq_some hf
    have hlen : 255 < (pjoin d (pname src)).length := by
      simpa using List.find?_some hf
    dsimp only
    split_ifs with hw hfree hfree <;> refine ⟨?_, ?_, fun hx => ⟨src, hsp, hlen⟩, ?_⟩
    all_goals intros
    all_goals try simp_all
    all_goals tauto

/-- C10 (confirmed): preflight never fails on account of a missing
source: an unreadable source adds nothing to the required-space sum and
produces no error; `free_space_ok` can only go false on destination free
space, `perms_ok` only on destination creation or writability, and
`path_len_ok` only on a computed destination path exceeding 255
characters, with every error message drawn from those three conditions. -/
theorem claim10_preflight_properties (fs : FS) (source_paths : List String)
    (destination_dir : String) :
    requiredSpace fs source_paths
      = requiredSpace fs (source_paths.filter fun s => (lookupFile fs s).isSome) ∧
    ((check_preflight fs source_paths destination_dir).2.free_space_ok = false →
      fs.freeBytes < requiredSpace fs source_paths + BUFFER_100MB) ∧
    ((check_preflight fs source_paths destination_dir).2.perms_ok = false →
      (pathExistsB fs destination_dir = false ∧ fs.canMkdir destination_dir = false) ∨
      fs.dirWritable destination_dir = false) ∧
    ((check_preflight fs source_paths destination_dir).2.path_len_ok = false →
      ∃ src, src ∈ source_paths ∧ 255 < (pjoin destination_dir (pname src)).length) ∧
    (∀ e, e ∈ (check_preflight fs source_paths destination_dir).2.errors →
      e = msgCannotCreate ∨ e = msgNotWritable ∨
      e = msgInsufficient (requiredSpace fs source_paths + BUFFER_100MB) fs.freeBytes ∨
      ∃ src, src ∈ source_paths ∧ e = msgTooLong src) := by
  refine ⟨requiredSpace_filter fs source_paths, ?_⟩
  unfold check_preflight
  by_cases hex : pathExistsB fs destination_dir = true
  · rw [if_neg (by simp [hex])]
    have h := checkPreflightBody_spec fs source_paths destination_dir
    exact ⟨h.1, fun hp => Or.inr (h.2.1 hp), h.2.2.1, fun e he => Or.inr (h.2.2.2 e he)⟩
  · rw [if_pos (by simpa using hex)]
    by_cases hmk : fs.canMkdir destination_dir = true
    · rw [if_pos hmk]
      have h := checkPreflightBody_spec { fs with dirs := destination_dir :: fs.dirs }
        source_paths destination_dir
      exact ⟨h.1, fun hp => Or.inr (h.2.1 hp), h.2.2.1, fun e he => Or.inr (h.2.2.2 e he)⟩
    · rw [if_neg hmk]
      refine ⟨?_, ?_, ?_, ?_⟩
      · intro hx; simp at hx
      · intro hx
        exact Or.inl ⟨by simpa using hex, by simpa using hmk⟩
      · intro hx; simp at hx
      · intro e he
        simp only [List.mem_singleton] at he
        exact Or.inl he

/-- C10 witness: with one existing 10-byte source and one missing source,
the required space counts only the existing one, and with 100 free bytes
the free-space implication yields the concrete shortfall. -/
theorem claim10_witness :
    requiredSpace fsPreflight ["s/m.mkv", "s/ghost.srt"]
      = requiredSpace fsPreflight
          (["s/m.mkv", "s/ghost.srt"].filter fun s =>
            (lookupFile fsPreflight s).isSome) ∧
    fsPreflightSmall.freeBytes
      < requiredSpace fsPreflightSmall ["s/m.mkv", "s/ghost.srt"] + BUFFER_100MB :=
  ⟨(claim10_preflight_properties fsPreflight ["s/m.mkv", "s/ghost.srt"] "d").1,
   (claim10_preflight_properties fsPreflightSmall ["s/m.mkv", "s/ghost.srt"] "d").2.1
     (by decide)⟩

end Rosey
